import Mathlib

/-!
Embedding of the 1D quantum path-integral simulation, `main_web.cpp` and `main.cpp`.

The two source files define the same sampling and scoring engine.  `main_web.cpp`
keeps its tunables in mutable globals and guards the normalisation; `main.cpp`
has constant tunables and no guard.

Conventions of the embedding.

* `double` is an ordered field `K` and `std::complex<double>` a field `C`
  (exact arithmetic, no rounding); the definitions are generic in both, so they
  run on `ℚ`, and the theorems that need the exponential are stated at `K = ℝ`,
  `C = ℂ` with `Complex.exp` and `Complex.abs` for `std::exp` and `std::abs`.
* The three library functions on complex numbers that the code calls are
  collected in `Numerics`.
* `std::mt19937 rng` and `std::normal_distribution<double> gaussian` are both
  mutated by the expression `gaussian(rng)`; their joint state is a value of an
  arbitrary type `σ` and the expression is a function `σ → K × σ`.
* `int` values are integers kept in the 32-bit range by `wrapInt` wherever the
  source does `int` arithmetic that can leave it: the vector size
  `TIME_STEPS + 1` and the frame counter; `%` on the counter is the truncating
  `Int.tmod`.
* `std::vector` is `List`.  A vector constructed with a negative `int` size
  throws `std::length_error`, and an assignment `v[i] = x` outside its bounds is
  undefined: a function that can do either returns an `Option`, `none` standing
  for no value returned.  Memory is otherwise unbounded in the model.
* An exception leaves `generatePaths` through every caller.  The functions on
  the simulation state return the state the object is left in, by return or by
  exception, and `generatePaths.throws` tells which of the two it was.
-/

namespace PathIntegral

/-! ## Library interface -/

/-- The complex-number library calls of the source: the constructor
`std::complex<double>(re, im)`, `std::exp` and `std::abs`. -/
structure Numerics (K C : Type) where
  complex : K → K → C
  exp : C → C
  abs : C → K

/-! ## Data model -/

/-- The tunables `LATTICE_SIZE … DX` (globals in `main_web.cpp`, constants in
`main.cpp`). -/
structure Globals (K : Type) where
  LATTICE_SIZE : Int
  TIME_STEPS : Int
  NUM_PATHS : Int
  HBAR : K
  MASS : K
  DT : K
  DX : K

/-- The source's `struct Path`. -/
structure Path (K C : Type) where
  positions : List K
  amplitude : C
  action : K

/-- The data members of `class PathIntegralSimulation`; `rng` is the joint state
of the members `rng` and `gaussian`.  The renderer member holds no simulation
data and is left out. -/
structure PathIntegralSimulation (K C σ : Type) where
  paths : List (Path K C)
  rng : σ
  currentFrame : Int
  totalTime : K
  canvasWidth : Int
  canvasHeight : Int

section Engine

variable {K C σ : Type} [LinearOrderedField K] [Field C]

/-- Two's-complement reduction of an integer to the range of a 32-bit `int`. -/
def wrapInt (z : Int) : Int := (z + 2147483648) % 4294967296 - 2147483648

/-- The potential `V(x) = 0.5 * x * x`. -/
def V (x : K) : K := 0.5 * x * x

/-- The body of the loop of `calculateAction` at index `t`. -/
def calculateAction.step (G : Globals K) (positions : List K) (action : K) (t : Nat) : K :=
  let dx := positions.getD t 0 - positions.getD (t - 1) 0
  let kinetic := 0.5 * G.MASS * dx * dx / (G.DT * G.DT)
  let potential := V (positions.getD t 0)
  action + (kinetic - potential) * G.DT

/-- The function `calculateAction`: the loop `for (t = 1; t < positions.size(); t++)`. -/
def calculateAction (G : Globals K) (positions : List K) : K :=
  (List.range' 1 (positions.length - 1)).foldl (calculateAction.step G positions) 0

/-- The body of the loop of `calculateAction` at index `t`, with the call
`V(positions[t])` replaced by a call of a given potential. -/
def calculateActionWith.step (potentialFn : K → K) (G : Globals K) (positions : List K)
    (action : K) (t : Nat) : K :=
  let dx := positions.getD t 0 - positions.getD (t - 1) 0
  let kinetic := 0.5 * G.MASS * dx * dx / (G.DT * G.DT)
  let potential := potentialFn (positions.getD t 0)
  action + (kinetic - potential) * G.DT

/-- The function `calculateAction` with the member function `V` replaced by a
given potential; with the potential `V` of the source it is `calculateAction`. -/
def calculateActionWith (potentialFn : K → K) (G : Globals K) (positions : List K) : K :=
  (List.range' 1 (positions.length - 1)).foldl
    (calculateActionWith.step potentialFn G positions) 0

/-- The body of the loop of `generateRandomPath` at index `t`, on the pair of the
vector under construction and the generator state. -/
def generateRandomPath.step (gaussian : σ → K × σ) (G : Globals K) (x0 xf : K)
    (st : List K × σ) (t : Nat) : List K × σ :=
  let alpha : K := (t : K) / (G.TIME_STEPS : K)
  let path := st.1.set t ((1 - alpha) * x0 + alpha * xf)
  let r := gaussian st.2
  (path.set t (path.getD t 0 + r.1 * 0.5), r.2)

/-- The assignment `v[i] = x` of the source at an `int` index `i`.  It is defined
for `0 ≤ i < v.size()`; outside these bounds the source has undefined behaviour
and the model has no result. -/
def assignAt (v : List K) (i : Int) (x : K) : Option (List K) :=
  if 0 ≤ i ∧ i < (v.length : Int) then some (v.set i.toNat x) else none

/-- The function `generateRandomPath`.  The size `TIME_STEPS + 1` is computed in
`int`, modulo 2^32 into the `int` range as for the frame counter of `update`: at
`TIME_STEPS = 2147483647` it is `-2147483648`.  A negative size makes the
constructor of the vector throw, so that no vector is returned.  Otherwise: a
zero-filled vector of that size, the two endpoint assignments, then the loop
`for (t = 1; t < TIME_STEPS; t++)`, whose counter stays below `TIME_STEPS`. -/
def generateRandomPath (gaussian : σ → K × σ) (G : Globals K) (x0 xf : K) (rng : σ) :
    Option (List K × σ) :=
  let size := wrapInt (G.TIME_STEPS + 1)
  if size < 0 then none
  else
    match assignAt (List.replicate size.toNat (0 : K)) 0 x0 with
    | none => none
    | some path =>
      match assignAt path G.TIME_STEPS xf with
      | none => none
      | some path =>
        some ((List.range' 1 (G.TIME_STEPS - 1).toNat).foldl
          (generateRandomPath.step gaussian G x0 xf) (path, rng))

/-- The vector and the generator state that a call of `generateRandomPath`
returns; where the call returns nothing, the empty vector and the unchanged
generator state stand in. -/
def generateRandomPath.result (gaussian : σ → K × σ) (G : Globals K) (x0 xf : K) (rng : σ) :
    List K × σ :=
  (generateRandomPath gaussian G x0 xf rng).getD ([], rng)

/-- The amplitude assigned to a trajectory before normalisation:
`std::exp(std::complex<double>(0, -action / HBAR))`. -/
def rawAmplitude (N : Numerics K C) (G : Globals K) (action : K) : C :=
  N.exp (N.complex 0 (-action / G.HBAR))

/-- The record that the first loop of `generatePaths` pushes for a sampled
sequence of positions: its action and its raw amplitude. -/
def scorePath (N : Numerics K C) (G : Globals K) (positions : List K) : Path K C :=
  { positions := positions,
    amplitude := rawAmplitude N G (calculateAction G positions),
    action := calculateAction G positions }

/-- The body of the first loop of `generatePaths`: sample a trajectory, score
it, assign its amplitude and push it to the back of `paths`.  When
`generateRandomPath` throws, the body has no result. -/
def generatePaths.step (N : Numerics K C) (gaussian : σ → K × σ) (G : Globals K) (x0 xf : K)
    (st : List (Path K C) × σ) (_i : Nat) : Option (List (Path K C) × σ) :=
  match generateRandomPath gaussian G x0 xf st.2 with
  | none => none
  | some r =>
    let action := calculateAction G r.1
    let amplitude := rawAmplitude N G action
    some (st.1 ++ [{ positions := r.1, amplitude := amplitude, action := action }], r.2)

/-- The loop `for (i = 0; i < NUM_PATHS; i++)` of `generatePaths` over the
remaining indices, from the members `paths` and `rng`: it ends when the indices
are used up or at the first exception, and gives the two members as they are
then, with `true` when it ended by an exception. -/
def generatePaths.loop (N : Numerics K C) (gaussian : σ → K × σ) (G : Globals K) (x0 xf : K) :
    List Nat → List (Path K C) × σ → (List (Path K C) × σ) × Bool
  | [], st => (st, false)
  | i :: rest, st =>
    match generatePaths.step N gaussian G x0 xf st i with
    | none => (st, true)
    | some st' => generatePaths.loop N gaussian G x0 xf rest st'

/-- The first part of `generatePaths`: `paths.clear()`, the boundary points
`x0 = -2.0`, `xf = 2.0`, and the loop `for (i = 0; i < NUM_PATHS; i++)`. -/
def generatePaths.run (N : Numerics K C) (gaussian : σ → K × σ) (G : Globals K) (rng : σ) :
    (List (Path K C) × σ) × Bool :=
  let x0 : K := -2.0
  let xf : K := 2.0
  generatePaths.loop N gaussian G x0 xf (List.range G.NUM_PATHS.toNat) ([], rng)

/-- The members `paths` and `rng` when the first loop of `generatePaths` ends. -/
def generatePaths.sample (N : Numerics K C) (gaussian : σ → K × σ) (G : Globals K) (rng : σ) :
    List (Path K C) × σ :=
  (generatePaths.run N gaussian G rng).1

/-- Whether the first loop of `generatePaths` ends by an exception. -/
def generatePaths.throws (N : Numerics K C) (gaussian : σ → K × σ) (G : Globals K) (rng : σ) :
    Bool :=
  (generatePaths.run N gaussian G rng).2

/-- The second loop of `generatePaths`: `sum += path.amplitude` from `sum(0, 0)`. -/
def generatePaths.sum (paths : List (Path K C)) : C :=
  paths.foldl (fun sum path => sum + path.amplitude) 0

/-- The third loop of `generatePaths`: `path.amplitude /= sum` for every path. -/
def generatePaths.normalize (sum : C) (paths : List (Path K C)) : List (Path K C) :=
  paths.map (fun path => { path with amplitude := path.amplitude / sum })

/-- The generator state after `n` evaluations of `gaussian(rng)` from `rng`. -/
def rngAfter (gaussian : σ → K × σ) (rng : σ) (n : Nat) : σ :=
  (fun s => (gaussian s).2)^[n] rng

/-- The `n`-th variate (counting from 1) that `gaussian(rng)` yields from `rng`. -/
def variate (gaussian : σ → K × σ) (rng : σ) (n : Nat) : K :=
  (gaussian (rngAfter gaussian rng (n - 1))).1

end Engine

/-! ## The web variant, `main_web.cpp` -/

namespace Web

/-- The program state of `main_web.cpp`: the mutable globals and the one
simulation object. -/
structure State (K C σ : Type) where
  G : Globals K
  sim : PathIntegralSimulation K C σ

section

variable {K C σ : Type} [LinearOrderedField K] [Field C]

/-- The initial values of the globals. -/
def initialGlobals : Globals K :=
  { LATTICE_SIZE := 100, TIME_STEPS := 50, NUM_PATHS := 500,
    HBAR := 1.0, MASS := 1.0, DT := 0.1, DX := 0.1 }

/-- The method `generatePaths` of `main_web.cpp`: the division by `sum` is
guarded by `std::abs(sum) > 1e-10`.  When the first loop ends by an exception
the rest is not run and the members stay as the loop left them. -/
def generatePaths (N : Numerics K C) (gaussian : σ → K × σ) (G : Globals K)
    (sim : PathIntegralSimulation K C σ) : PathIntegralSimulation K C σ :=
  let r := generatePaths.sample N gaussian G sim.rng
  let sum := generatePaths.sum r.1
  let paths :=
    if generatePaths.throws N gaussian G sim.rng then r.1
    else if N.abs sum > 1e-10 then generatePaths.normalize sum r.1 else r.1
  { sim with paths := paths, rng := r.2 }

/-- The member initialisers of the constructor: `rng(42)` is the generator
state `seed`, the counters start at zero, the canvas is 800 by 600. -/
def memberInit (seed : σ) : PathIntegralSimulation K C σ :=
  { paths := [], rng := seed, currentFrame := 0, totalTime := 0.0,
    canvasWidth := 800, canvasHeight := 600 }

/-- The constructor: the member initialisers, then the body `generatePaths()`. -/
def construct (N : Numerics K C) (gaussian : σ → K × σ) (G : Globals K) (seed : σ) :
    PathIntegralSimulation K C σ :=
  generatePaths N gaussian G (memberInit seed)

/-- The method `update`: `currentFrame++`, `totalTime += 0.016`, and a
regeneration when `currentFrame % 180 == 0`.  The increment of the `int` counter
is taken modulo 2^32 into the `int` range, which is what the compiled targets
do past 2147483647 (the C++ standard leaves that overflow undefined). -/
def update (N : Numerics K C) (gaussian : σ → K × σ) (s : State K C σ) : State K C σ :=
  let sim := { s.sim with currentFrame := wrapInt (s.sim.currentFrame + 1) }
  let sim := { sim with totalTime := sim.totalTime + 0.016 }
  if sim.currentFrame.tmod 180 = 0 then { s with sim := generatePaths N gaussian s.G sim }
  else { s with sim := sim }

/-- The method `setCanvasSize` (the `glViewport` call is presentation only). -/
def setCanvasSize (s : State K C σ) (width height : Int) : State K C σ :=
  { s with sim := { s.sim with canvasWidth := width, canvasHeight := height } }

/-- The method `keyPressed`: keys 82 and 114 regenerate. -/
def keyPressed (N : Numerics K C) (gaussian : σ → K × σ) (s : State K C σ) (key : Int) :
    State K C σ :=
  if key = 82 ∨ key = 114 then { s with sim := generatePaths N gaussian s.G s.sim } else s

/-- The method `mouseClick`: regenerates whatever the coordinates. -/
def mouseClick (N : Numerics K C) (gaussian : σ → K × σ) (s : State K C σ) (_x _y : K) :
    State K C σ :=
  { s with sim := generatePaths N gaussian s.G s.sim }

/-- The method `setLatticeSize`: no validation. -/
def setLatticeSize (N : Numerics K C) (gaussian : σ → K × σ) (s : State K C σ) (size : Int) :
    State K C σ :=
  let G := { s.G with LATTICE_SIZE := size }
  { G := G, sim := generatePaths N gaussian G s.sim }

/-- The method `setTimeSteps`: accepts `steps > 0`. -/
def setTimeSteps (N : Numerics K C) (gaussian : σ → K × σ) (s : State K C σ) (steps : Int) :
    State K C σ :=
  if steps > 0 then
    let G := { s.G with TIME_STEPS := steps }
    { G := G, sim := generatePaths N gaussian G s.sim }
  else s

/-- The method `setNumPaths`: accepts `paths > 0 && paths <= 2000`. -/
def setNumPaths (N : Numerics K C) (gaussian : σ → K × σ) (s : State K C σ) (paths : Int) :
    State K C σ :=
  if paths > 0 ∧ paths ≤ 2000 then
    let G := { s.G with NUM_PATHS := paths }
    { G := G, sim := generatePaths N gaussian G s.sim }
  else s

/-- The method `setHbar`: accepts `hbar > 0`. -/
def setHbar (N : Numerics K C) (gaussian : σ → K × σ) (s : State K C σ) (hbar : K) :
    State K C σ :=
  if hbar > 0 then
    let G := { s.G with HBAR := hbar }
    { G := G, sim := generatePaths N gaussian G s.sim }
  else s

/-- The method `setMass`: accepts `mass > 0`. -/
def setMass (N : Numerics K C) (gaussian : σ → K × σ) (s : State K C σ) (mass : K) :
    State K C σ :=
  if mass > 0 then
    let G := { s.G with MASS := mass }
    { G := G, sim := generatePaths N gaussian G s.sim }
  else s

/-- The method `setDt`: accepts `dt > 0`. -/
def setDt (N : Numerics K C) (gaussian : σ → K × σ) (s : State K C σ) (dt : K) :
    State K C σ :=
  if dt > 0 then
    let G := { s.G with DT := dt }
    { G := G, sim := generatePaths N gaussian G s.sim }
  else s

/-- The method `setDx`: accepts `dx > 0`. -/
def setDx (N : Numerics K C) (gaussian : σ → K × σ) (s : State K C σ) (dx : K) :
    State K C σ :=
  if dx > 0 then
    let G := { s.G with DX := dx }
    { G := G, sim := generatePaths N gaussian G s.sim }
  else s

/-- The calls that the page, the event callbacks and the main loop make on the
simulation object. -/
inductive Call (K : Type) where
  | update
  | generatePaths
  | keyPressed (key : Int)
  | mouseClick (x y : K)
  | setCanvasSize (width height : Int)
  | setLatticeSize (size : Int)
  | setTimeSteps (steps : Int)
  | setNumPaths (paths : Int)
  | setHbar (hbar : K)
  | setMass (mass : K)
  | setDt (dt : K)
  | setDx (dx : K)

/-- The effect of one call on the program state. -/
def call (N : Numerics K C) (gaussian : σ → K × σ) (s : State K C σ) : Call K → State K C σ
  | .update => update N gaussian s
  | .generatePaths => { s with sim := generatePaths N gaussian s.G s.sim }
  | .keyPressed key => keyPressed N gaussian s key
  | .mouseClick x y => mouseClick N gaussian s x y
  | .setCanvasSize width height => setCanvasSize s width height
  | .setLatticeSize size => setLatticeSize N gaussian s size
  | .setTimeSteps steps => setTimeSteps N gaussian s steps
  | .setNumPaths paths => setNumPaths N gaussian s paths
  | .setHbar hbar => setHbar N gaussian s hbar
  | .setMass mass => setMass N gaussian s mass
  | .setDt dt => setDt N gaussian s dt
  | .setDx dx => setDx N gaussian s dx

/-- The program state right after `sim = new PathIntegralSimulation()`. -/
def start (N : Numerics K C) (gaussian : σ → K × σ) (seed : σ) : State K C σ :=
  { G := initialGlobals, sim := construct N gaussian initialGlobals seed }

/-- The program state after a sequence of calls made on the constructed object. -/
def run (N : Numerics K C) (gaussian : σ → K × σ) (seed : σ) (calls : List (Call K)) :
    State K C σ :=
  calls.foldl (call N gaussian) (start N gaussian seed)

/-- The ranges that the setters of `main_web.cpp` admit for the globals. -/
def ParamsOK (G : Globals K) : Prop :=
  1 ≤ G.TIME_STEPS ∧ 1 ≤ G.NUM_PATHS ∧ G.NUM_PATHS ≤ 2000 ∧
  0 < G.HBAR ∧ 0 < G.MASS ∧ 0 < G.DT ∧ 0 < G.DX

/-- An ensemble of `NUM_PATHS` trajectories of `TIME_STEPS + 1` positions each,
from `-2.0` to `2.0`. -/
def EnsembleOK (G : Globals K) (paths : List (Path K C)) : Prop :=
  (paths.length : Int) = G.NUM_PATHS ∧
  ∀ p ∈ paths, (p.positions.length : Int) = G.TIME_STEPS + 1 ∧
    p.positions.head? = some (-2.0) ∧ p.positions.getLast? = some 2.0

/-- The controller invariant: admitted globals; a matching ensemble as long as
`TIME_STEPS + 1` is an `int`; and an empty ensemble otherwise, which is how the
exception of `generateRandomPath` leaves it. -/
def Invariant (s : State K C σ) : Prop :=
  ParamsOK s.G ∧
  (s.G.TIME_STEPS ≤ 2147483646 → EnsembleOK s.G s.sim.paths) ∧
  (2147483646 < s.G.TIME_STEPS → s.sim.paths = [])

end

end Web

/-! ## The desktop variant, `main.cpp` -/

namespace Desktop

/-- The data members of `class PathIntegralSimulation` in `main.cpp`. -/
structure PathIntegralSimulation (K C σ : Type) where
  paths : List (Path K C)
  rng : σ
  currentFrame : Int
  totalTime : K

section

variable {K C σ : Type} [LinearOrderedField K] [Field C]

/-- The constants of `main.cpp`. -/
def globals : Globals K :=
  { LATTICE_SIZE := 100, TIME_STEPS := 50, NUM_PATHS := 1000,
    HBAR := 1.0, MASS := 1.0, DT := 0.1, DX := 0.1 }

/-- The method `generatePaths` of `main.cpp`: every amplitude is divided by
`sum`, without a guard.  When the first loop ends by an exception the rest is
not run. -/
def generatePaths (N : Numerics K C) (gaussian : σ → K × σ)
    (sim : PathIntegralSimulation K C σ) : PathIntegralSimulation K C σ :=
  let r := generatePaths.sample N gaussian globals sim.rng
  let sum := generatePaths.sum r.1
  let paths :=
    if generatePaths.throws N gaussian globals sim.rng then r.1
    else generatePaths.normalize sum r.1
  { sim with paths := paths, rng := r.2 }

/-- The member initialisers of the constructor of `main.cpp`. -/
def memberInit (seed : σ) : PathIntegralSimulation K C σ :=
  { paths := [], rng := seed, currentFrame := 0, totalTime := 0.0 }

/-- The constructor of `main.cpp`: the member initialisers, then `generatePaths()`. -/
def construct (N : Numerics K C) (gaussian : σ → K × σ) (seed : σ) :
    PathIntegralSimulation K C σ :=
  generatePaths N gaussian (memberInit seed)

/-- The method `update` of `main.cpp`: as in the web variant, with an interval of
120 frames. -/
def update (N : Numerics K C) (gaussian : σ → K × σ) (sim : PathIntegralSimulation K C σ) :
    PathIntegralSimulation K C σ :=
  let sim := { sim with currentFrame := wrapInt (sim.currentFrame + 1) }
  let sim := { sim with totalTime := sim.totalTime + 0.016 }
  if sim.currentFrame.tmod 120 = 0 then generatePaths N gaussian sim else sim

end

end Desktop

/-! ## Sample inputs -/

section Samples

variable {K C σ : Type} [LinearOrderedField K]

/-- A generator whose state counts the draws: the `n`-th draw (from 0) yields
`n / 4 - 1 / 2`. -/
def countingGaussian (n : Nat) : K × Nat := ((n : K) / 4 - 1 / 2, n + 1)

/-- A generator whose first draw yields `0` and every later draw `2`. -/
def zeroThenTwo (n : Nat) : K × Nat := (if n = 0 then 0 else 2, n + 1)

/-- A generator whose state counts the draws: draw 0 yields `a`, every draw
whose number is 49 modulo 98 yields `c`, every other draw yields `0`.  With 49
draws per trajectory, trajectory 0 gets `a` and every odd trajectory gets `c` as
its first variate, and all other variates are `0`. -/
def pulseGaussian (a c : K) (n : Nat) : K × Nat :=
  (if n = 0 then a else if n % 98 = 49 then c else 0, n + 1)

/-- The first variate that trajectory number `j` gets from the pulse generator
when every trajectory takes 49 draws. -/
def pulseFirst (a c : K) (j : Nat) : K :=
  if j = 0 then a else if j % 2 = 1 then c else 0

/-- A generator that always yields `0`. -/
def zeroGaussian (u : Unit) : K × Unit := (0, u)

/-- Globals with three time steps and two paths. -/
def smallGlobals : Globals K :=
  { LATTICE_SIZE := 100, TIME_STEPS := 3, NUM_PATHS := 2,
    HBAR := 1, MASS := 1, DT := 0.1, DX := 0.1 }

/-- Globals with one time step and one path. -/
def singletonGlobals : Globals K :=
  { LATTICE_SIZE := 100, TIME_STEPS := 1, NUM_PATHS := 1,
    HBAR := 1, MASS := 1, DT := 0.1, DX := 0.1 }

/-- The globals of the web variant after `setTimeSteps(2147483647)`. -/
def overflowGlobals : Globals K :=
  { LATTICE_SIZE := 100, TIME_STEPS := 2147483647, NUM_PATHS := 500,
    HBAR := 1.0, MASS := 1.0, DT := 0.1, DX := 0.1 }

/-- Globals with two time steps, two paths, unit mass and time step, and a given
value of `HBAR`. -/
def twoPathGlobals (hbar : K) : Globals K :=
  { LATTICE_SIZE := 100, TIME_STEPS := 2, NUM_PATHS := 2,
    HBAR := hbar, MASS := 1, DT := 1, DX := 0.1 }

end Samples

/-! ## The action evaluator -/

section ActionEvaluator

variable {K : Type} [LinearOrderedField K]

theorem foldl_add_range' (f : K → Nat → K) (g : Nat → K)
    (hf : ∀ acc t, f acc t = acc + g t) (a n : Nat) (init : K) :
    (List.range' a n).foldl f init = init + ∑ t ∈ Finset.Ico a (a + n), g t := by
  induction n generalizing a init with
  | zero => simp
  | succ n ih =>
    rw [List.range'_succ, List.foldl_cons, ih, hf,
      Finset.sum_eq_sum_Ico_succ_bot (by omega : a < a + (n + 1))]
    rw [show a + 1 + n = a + (n + 1) by omega, add_assoc]

/-- The loop of `calculateAction`, for any potential, as a sum over the steps. -/
theorem calculateActionWith_sum (potentialFn : K → K) (G : Globals K) (p : List K) :
    calculateActionWith potentialFn G p =
      ∑ t ∈ Finset.Icc 1 (p.length - 1),
        (0.5 * G.MASS * (p.getD t 0 - p.getD (t - 1) 0) ^ 2 / G.DT ^ 2
          - potentialFn (p.getD t 0)) * G.DT := by
  unfold calculateActionWith
  rw [foldl_add_range' (calculateActionWith.step potentialFn G p)
    (fun t => (0.5 * G.MASS * (p.getD t 0 - p.getD (t - 1) 0) ^ 2 / G.DT ^ 2
          - potentialFn (p.getD t 0)) * G.DT)]
  · rw [zero_add]
    apply Finset.sum_congr _ (fun _ _ => rfl)
    ext t
    simp only [Finset.mem_Ico, Finset.mem_Icc]
    omega
  · intro acc t
    simp only [calculateActionWith.step]
    ring

/-- The evaluator of the source is the parametrised one at the potential `V`. -/
theorem calculateAction_eq_with (G : Globals K) (p : List K) :
    calculateAction G p = calculateActionWith V G p := rfl

/-- The evaluator of the source as a sum over the steps. -/
theorem calculateAction_sum (G : Globals K) (p : List K) :
    calculateAction G p =
      ∑ t ∈ Finset.Icc 1 (p.length - 1),
        (0.5 * G.MASS * (p.getD t 0 - p.getD (t - 1) 0) ^ 2 / G.DT ^ 2
          - 0.5 * (p.getD t 0) ^ 2) * G.DT := by
  rw [calculateAction_eq_with, calculateActionWith_sum]
  apply Finset.sum_congr rfl
  intro t _
  simp only [V]
  ring

/-- Claim C3: on every position sequence of length at least 2, `calculateAction`
returns the sum over `t = 1 .. len - 1` of
`(0.5 * MASS * (p[t] - p[t-1])^2 / DT^2 - V(p[t])) * DT` with `V(x) = 0.5 * x^2`;
the potential is taken at the later point of each step. -/
theorem calculateAction_eq_sum (G : Globals K) (p : List K) (_hp : 2 ≤ p.length) :
    calculateAction G p =
      ∑ t ∈ Finset.Icc 1 (p.length - 1),
        (0.5 * G.MASS * (p.getD t 0 - p.getD (t - 1) 0) ^ 2 / G.DT ^ 2
          - 0.5 * (p.getD t 0) ^ 2) * G.DT :=
  calculateAction_sum G p

/-- Witness of C3 on the three-point path `[-2, 1, 2]` over `ℚ`. -/
theorem calculateAction_eq_sum_witness :
    2 ≤ ([-2, 1, 2] : List ℚ).length ∧
    calculateAction (smallGlobals : Globals ℚ) [-2, 1, 2] =
      ∑ t ∈ Finset.Icc 1 (([-2, 1, 2] : List ℚ).length - 1),
        (0.5 * smallGlobals.MASS
            * (([-2, 1, 2] : List ℚ).getD t 0 - ([-2, 1, 2] : List ℚ).getD (t - 1) 0) ^ 2
            / (smallGlobals : Globals ℚ).DT ^ 2
          - 0.5 * (([-2, 1, 2] : List ℚ).getD t 0) ^ 2) * (smallGlobals : Globals ℚ).DT :=
  ⟨by decide, calculateAction_eq_sum smallGlobals [-2, 1, 2] (by decide)⟩

end ActionEvaluator

/-! ## The trajectory sampler -/

theorem rngAfter_succ {K σ : Type} (gaussian : σ → K × σ) (g : σ) (n : Nat) :
    rngAfter gaussian g (n + 1) = (gaussian (rngAfter gaussian g n)).2 := by
  simp only [rngAfter, Function.iterate_succ_apply']

section Sampler

variable {K σ : Type} [LinearOrderedField K]

/-- The state of the loop of `generateRandomPath` after the indices `1 .. n`. -/
theorem generateRandomPath_loop (gaussian : σ → K × σ) (G : Globals K) (x0 xf : K)
    (path0 : List K) (g : σ) (n : Nat) :
    ((List.range' 1 n).foldl (generateRandomPath.step gaussian G x0 xf) (path0, g)).2
        = rngAfter gaussian g n ∧
    ((List.range' 1 n).foldl (generateRandomPath.step gaussian G x0 xf) (path0, g)).1.length
        = path0.length ∧
    ∀ j : Nat,
      ((List.range' 1 n).foldl (generateRandomPath.step gaussian G x0 xf) (path0, g)).1[j]?
        = if 1 ≤ j ∧ j ≤ n ∧ j < path0.length then
            some ((1 - (j : K) / (G.TIME_STEPS : K)) * x0 + (j : K) / (G.TIME_STEPS : K) * xf
              + variate gaussian g j * 0.5)
          else path0[j]? := by
  induction n with
  | zero =>
    refine ⟨rfl, rfl, fun j => ?_⟩
    have : ¬ (1 ≤ j ∧ j ≤ 0 ∧ j < path0.length) := by omega
    rw [if_neg this]
    rfl
  | succ n ih =>
    obtain ⟨ih2, ihlen, ihget⟩ := ih
    rw [List.range'_concat, List.foldl_append]
    simp only [List.foldl_cons, List.foldl_nil, one_mul]
    generalize (List.range' 1 n).foldl (generateRandomPath.step gaussian G x0 xf) (path0, g) = st
      at ih2 ihlen ihget
    refine ⟨?_, ?_, fun j => ?_⟩
    · simp only [generateRandomPath.step, rngAfter_succ, ih2]
    · simp only [generateRandomPath.step, List.length_set, ihlen]
    · simp only [generateRandomPath.step, List.getElem?_set, List.length_set,
        List.getD_eq_getElem?_getD, ihlen]
      by_cases hj : 1 + n = j
      · subst hj
        by_cases hlen : 1 + n < path0.length
        · have hc : 1 ≤ 1 + n ∧ 1 + n ≤ n + 1 ∧ 1 + n < path0.length := ⟨by omega, by omega, hlen⟩
          have hv : variate gaussian g (1 + n) = (gaussian st.2).1 := by
            simp only [variate, ih2]
            congr 3
            omega
          simp [hlen, hc, hv]
        · have hc : ¬ (1 ≤ 1 + n ∧ 1 + n ≤ n + 1 ∧ 1 + n < path0.length) := by omega
          have hnone : path0[1 + n]? = none := List.getElem?_eq_none (by omega)
          simp [hlen, hc, hnone]
      · rw [if_neg hj, if_neg hj, ihget j]
        by_cases hc : 1 ≤ j ∧ j ≤ n ∧ j < path0.length
        · have hc2 : 1 ≤ j ∧ j ≤ n + 1 ∧ j < path0.length := by omega
          rw [if_pos hc, if_pos hc2]
        · have hc2 : ¬ (1 ≤ j ∧ j ≤ n + 1 ∧ j < path0.length) := by omega
          rw [if_neg hc, if_neg hc2]

/-- The vector of `generateRandomPath` before its loop has `TIME_STEPS + 1`
entries, `x0` in front and `xf` at index `TIME_STEPS`. -/
theorem generateRandomPath_init (x0 xf : K) (m : Nat) (hm : 1 ≤ m) :
    (((List.replicate (m + 1) (0 : K)).set 0 x0).set m xf).length = m + 1 ∧
    (((List.replicate (m + 1) (0 : K)).set 0 x0).set m xf)[0]? = some x0 ∧
    (((List.replicate (m + 1) (0 : K)).set 0 x0).set m xf)[m]? = some xf := by
  refine ⟨by simp, ?_, ?_⟩
  · rw [List.getElem?_set_ne (by omega), List.getElem?_set_self (by simp)]
  · rw [List.getElem?_set_self (by simp)]

/-- In the range `0 ≤ TIME_STEPS ≤ 2147483646` the size `TIME_STEPS + 1` is an
`int`, both endpoint assignments are in bounds, and `generateRandomPath`
returns what its loop leaves. -/
theorem generateRandomPath_closed (gaussian : σ → K × σ) (G : Globals K) (x0 xf : K) (g : σ)
    (h0 : 0 ≤ G.TIME_STEPS) (h1 : G.TIME_STEPS ≤ 2147483646) :
    generateRandomPath gaussian G x0 xf g
      = some ((List.range' 1 (G.TIME_STEPS - 1).toNat).foldl
          (generateRandomPath.step gaussian G x0 xf)
          (((List.replicate (G.TIME_STEPS + 1).toNat (0 : K)).set 0 x0).set G.TIME_STEPS.toNat xf,
            g)) := by
  have hw : wrapInt (G.TIME_STEPS + 1) = G.TIME_STEPS + 1 := by
    unfold wrapInt
    omega
  have hc1 : (0 : Int) ≤ 0 ∧
      (0 : Int) < ((List.replicate (G.TIME_STEPS + 1).toNat (0 : K)).length : Int) := by
    rw [List.length_replicate]
    omega
  have hc2 : 0 ≤ G.TIME_STEPS ∧ G.TIME_STEPS
      < ((((List.replicate (G.TIME_STEPS + 1).toNat (0 : K)).set (0 : Int).toNat x0)).length
          : Int) := by
    rw [List.length_set, List.length_replicate]
    omega
  unfold generateRandomPath
  simp only [hw, assignAt]
  rw [if_neg (by omega), if_pos hc1]
  simp only
  rw [if_pos hc2]
  rfl

theorem generateRandomPath_result (gaussian : σ → K × σ) (G : Globals K) (x0 xf : K) (g : σ)
    (h0 : 0 ≤ G.TIME_STEPS) (h1 : G.TIME_STEPS ≤ 2147483646) :
    generateRandomPath.result gaussian G x0 xf g
      = (List.range' 1 (G.TIME_STEPS - 1).toNat).foldl
          (generateRandomPath.step gaussian G x0 xf)
          (((List.replicate (G.TIME_STEPS + 1).toNat (0 : K)).set 0 x0).set G.TIME_STEPS.toNat xf,
            g) := by
  rw [generateRandomPath.result, generateRandomPath_closed gaussian G x0 xf g h0 h1]
  rfl

theorem generateRandomPath_eq_some (gaussian : σ → K × σ) (G : Globals K) (x0 xf : K) (g : σ)
    (h0 : 0 ≤ G.TIME_STEPS) (h1 : G.TIME_STEPS ≤ 2147483646) :
    generateRandomPath gaussian G x0 xf g
      = some (generateRandomPath.result gaussian G x0 xf g) := by
  rw [generateRandomPath.result, generateRandomPath_closed gaussian G x0 xf g h0 h1]
  rfl

/-- What `generateRandomPath` returns when `1 ≤ TIME_STEPS ≤ 2147483646`: the
length, the two endpoints, the interior positions and the generator state. -/
theorem generateRandomPath_spec (gaussian : σ → K × σ) (G : Globals K) (x0 xf : K) (g : σ)
    (hT : 1 ≤ G.TIME_STEPS) (hT2 : G.TIME_STEPS ≤ 2147483646) :
    ((generateRandomPath.result gaussian G x0 xf g).1.length : Int) = G.TIME_STEPS + 1 ∧
    (generateRandomPath.result gaussian G x0 xf g).1.head? = some x0 ∧
    (generateRandomPath.result gaussian G x0 xf g).1.getLast? = some xf ∧
    (∀ t : Nat, 1 ≤ t → (t : Int) ≤ G.TIME_STEPS - 1 →
      (generateRandomPath.result gaussian G x0 xf g).1[t]? =
        some ((1 - (t : K) / (G.TIME_STEPS : K)) * x0 + (t : K) / (G.TIME_STEPS : K) * xf
          + 0.5 * variate gaussian g t)) ∧
    (generateRandomPath.result gaussian G x0 xf g).2
      = rngAfter gaussian g (G.TIME_STEPS - 1).toNat := by
  obtain ⟨m, hm⟩ := Int.eq_ofNat_of_zero_le (by omega : 0 ≤ G.TIME_STEPS)
  have hm1 : 1 ≤ m := by omega
  have e1 : (G.TIME_STEPS + 1).toNat = m + 1 := by omega
  have e2 : (G.TIME_STEPS - 1).toNat = m - 1 := by omega
  have e3 : G.TIME_STEPS.toNat = m := by omega
  obtain ⟨hlen0, hfst, hlst⟩ := generateRandomPath_init x0 xf m hm1
  obtain ⟨hrng, hlen, hget⟩ := generateRandomPath_loop gaussian G x0 xf
    (((List.replicate (m + 1) (0 : K)).set 0 x0).set m xf) g (m - 1)
  rw [generateRandomPath_result gaussian G x0 xf g (by omega) hT2]
  simp only [e1, e2, e3]
  refine ⟨?_, ?_, ?_, fun t ht1 ht2 => ?_, hrng⟩
  · rw [hlen, hlen0, hm]
    push_cast
    ring
  · rw [List.head?_eq_getElem?, hget 0, if_neg (by omega), hfst]
  · rw [List.getLast?_eq_getElem?, hlen, hlen0, Nat.add_sub_cancel, hget m,
      if_neg (by omega), hlst]
  · rw [hget t, if_pos ⟨ht1, by omega, by omega⟩, mul_comm (variate gaussian g t)]

/-- Outside the range `0 ≤ TIME_STEPS ≤ 2147483646` no vector is returned:
the size is negative, or an endpoint assignment is out of bounds. -/
theorem generateRandomPath_eq_none (gaussian : σ → K × σ) (G : Globals K) (x0 xf : K) (g : σ)
    (h : ¬ (0 ≤ G.TIME_STEPS ∧ G.TIME_STEPS ≤ 2147483646)) :
    generateRandomPath gaussian G x0 xf g = none := by
  unfold generateRandomPath
  simp only [assignAt]
  by_cases hs : wrapInt (G.TIME_STEPS + 1) < 0
  · rw [if_pos hs]
  · rw [if_neg hs]
    by_cases hc1 : (0 : Int) ≤ 0 ∧
        (0 : Int) < ((List.replicate (wrapInt (G.TIME_STEPS + 1)).toNat (0 : K)).length : Int)
    · rw [if_pos hc1]
      simp only
      rw [if_neg]
      rw [List.length_set, List.length_replicate]
      unfold wrapInt at hs ⊢
      omega
    · rw [if_neg hc1]

/-- A call of `generateRandomPath` that returns does so with `TIME_STEPS` in
the range `0 .. 2147483646` and with the value `generateRandomPath.result`. -/
theorem generateRandomPath_of_some (gaussian : σ → K × σ) (G : Globals K) (x0 xf : K) (g : σ)
    (r : List K × σ) (h : generateRandomPath gaussian G x0 xf g = some r) :
    (0 ≤ G.TIME_STEPS ∧ G.TIME_STEPS ≤ 2147483646) ∧
    r = generateRandomPath.result gaussian G x0 xf g := by
  by_cases hr : 0 ≤ G.TIME_STEPS ∧ G.TIME_STEPS ≤ 2147483646
  · refine ⟨hr, ?_⟩
    rw [generateRandomPath_eq_some gaussian G x0 xf g hr.1 hr.2] at h
    exact (Option.some.inj h).symm
  · rw [generateRandomPath_eq_none gaussian G x0 xf g hr] at h
    exact absurd h (by simp)

/-- Claim C4, amended: for `1 ≤ TIME_STEPS ≤ 2147483646`, every `x0`, `xf` and
generator state, `generateRandomPath` returns a sequence of exactly
`TIME_STEPS + 1` positions, the first being `x0` and the last `xf`. -/
theorem generateRandomPath_shape (gaussian : σ → K × σ) (G : Globals K) (x0 xf : K) (g : σ)
    (hT : 1 ≤ G.TIME_STEPS) (hT2 : G.TIME_STEPS ≤ 2147483646) :
    ∃ path g', generateRandomPath gaussian G x0 xf g = some (path, g') ∧
      (path.length : Int) = G.TIME_STEPS + 1 ∧
      path.head? = some x0 ∧ path.getLast? = some xf :=
  have h := generateRandomPath_spec gaussian G x0 xf g hT hT2
  ⟨(generateRandomPath.result gaussian G x0 xf g).1,
    (generateRandomPath.result gaussian G x0 xf g).2,
    generateRandomPath_eq_some gaussian G x0 xf g (by omega) hT2, h.1, h.2.1, h.2.2.1⟩

/-- Witness of the amended C4 over `ℚ`: three time steps, endpoints `-2` and `2`. -/
theorem generateRandomPath_shape_witness :
    ((1 : Int) ≤ (smallGlobals : Globals ℚ).TIME_STEPS ∧
      (smallGlobals : Globals ℚ).TIME_STEPS ≤ 2147483646) ∧
    ∃ path g', generateRandomPath countingGaussian (smallGlobals : Globals ℚ) (-2) 2 0
        = some (path, g') ∧
      (path.length : Int) = (smallGlobals : Globals ℚ).TIME_STEPS + 1 ∧
      path.head? = some (-2) ∧ path.getLast? = some 2 :=
  ⟨⟨by decide, by decide⟩,
    generateRandomPath_shape countingGaussian smallGlobals (-2) 2 0 (by decide) (by decide)⟩

/-- Counterexample to C4 as stated: with `TIME_STEPS = 2147483647`, a value that
`setTimeSteps` accepts, the size `TIME_STEPS + 1` overflows to `-2147483648`, the
constructor of the vector throws, and `generateRandomPath` returns no
sequence. -/
theorem generateRandomPath_shape_counterexample :
    (1 : Int) ≤ (overflowGlobals : Globals ℚ).TIME_STEPS ∧
    wrapInt ((overflowGlobals : Globals ℚ).TIME_STEPS + 1) = -2147483648 ∧
    generateRandomPath countingGaussian (overflowGlobals : Globals ℚ) (-2) 2 0 = none := by
  refine ⟨by decide, by decide, ?_⟩
  exact generateRandomPath_eq_none countingGaussian overflowGlobals (-2) 2 0 (by decide)

end Sampler

/-! ## Amplitudes and normalisation -/

section Amp

theorem generatePaths_sum_eq {K C : Type} [Field C] (paths : List (Path K C)) :
    generatePaths.sum paths = (paths.map (fun p => p.amplitude)).sum := by
  have h : ∀ (l : List (Path K C)) (a : C),
      l.foldl (fun sum path => sum + path.amplitude) a = a + (l.map (fun p => p.amplitude)).sum := by
    intro l
    induction l with
    | nil => intro a; simp
    | cons p l ih => intro a; simp [ih, add_assoc]
  rw [generatePaths.sum, h, zero_add]

theorem normalize_sum {K C : Type} [Field C] (sum : C) (paths : List (Path K C)) :
    ((generatePaths.normalize sum paths).map (fun p => p.amplitude)).sum
      = (paths.map (fun p => p.amplitude)).sum / sum := by
  induction paths with
  | nil => simp [generatePaths.normalize]
  | cons p l ih =>
    simp only [generatePaths.normalize, List.map_cons, List.sum_cons] at ih ⊢
    rw [ih, add_div]

/-- The body of the first loop of `generatePaths` when `TIME_STEPS + 1` is an
`int`: it pushes the scored trajectory. -/
theorem step_of_range {K C σ : Type} [LinearOrderedField K] (N : Numerics K C)
    (gaussian : σ → K × σ) (G : Globals K) (x0 xf : K) (st : List (Path K C) × σ) (i : Nat)
    (h0 : 0 ≤ G.TIME_STEPS) (h1 : G.TIME_STEPS ≤ 2147483646) :
    generatePaths.step N gaussian G x0 xf st i
      = some (st.1 ++ [scorePath N G (generateRandomPath.result gaussian G x0 xf st.2).1],
          (generateRandomPath.result gaussian G x0 xf st.2).2) := by
  simp only [generatePaths.step, generateRandomPath_eq_some gaussian G x0 xf st.2 h0 h1,
    scorePath]

/-- The body of the first loop of `generatePaths` when `generateRandomPath`
throws. -/
theorem step_of_not_range {K C σ : Type} [LinearOrderedField K] (N : Numerics K C)
    (gaussian : σ → K × σ) (G : Globals K) (x0 xf : K) (st : List (Path K C) × σ) (i : Nat)
    (h : ¬ (0 ≤ G.TIME_STEPS ∧ G.TIME_STEPS ≤ 2147483646)) :
    generatePaths.step N gaussian G x0 xf st i = none := by
  simp only [generatePaths.step, generateRandomPath_eq_none gaussian G x0 xf st.2 h]

/-- Every path that the sampling loop leaves in `paths` satisfies a property that
holds of each freshly scored trajectory. -/
theorem sample_loop_forall {K C σ : Type} [LinearOrderedField K] (N : Numerics K C)
    (gaussian : σ → K × σ) (G : Globals K) (x0 xf : K) (P : Path K C → Prop)
    (hP : ∀ (g : σ) (r : List K × σ), generateRandomPath gaussian G x0 xf g = some r →
      P { positions := r.1, amplitude := rawAmplitude N G (calculateAction G r.1),
          action := calculateAction G r.1 })
    (l : List Nat) (st : List (Path K C) × σ) (hacc : ∀ p ∈ st.1, P p) :
    ∀ p ∈ (generatePaths.loop N gaussian G x0 xf l st).1.1, P p := by
  induction l generalizing st with
  | nil => exact hacc
  | cons i l ih =>
    rw [generatePaths.loop]
    cases hstep : generatePaths.step N gaussian G x0 xf st i with
    | none => exact hacc
    | some st' =>
      simp only
      apply ih
      intro p hp
      simp only [generatePaths.step] at hstep
      cases hr : generateRandomPath gaussian G x0 xf st.2 with
      | none => rw [hr] at hstep; exact absurd hstep (by simp)
      | some r =>
        rw [hr] at hstep
        simp only [Option.some.injEq] at hstep
        rw [← hstep] at hp
        simp only [List.mem_append, List.mem_singleton] at hp
        rcases hp with hp | hp
        · exact hacc p hp
        · rw [hp]; exact hP st.2 r hr

/-- The sampling loop when `TIME_STEPS + 1` is an `int`: it runs to the end and
trajectory `j` is sampled from the generator state after `j * (TIME_STEPS - 1)`
draws. -/
theorem sample_loop_of_range {K C σ : Type} [LinearOrderedField K] (N : Numerics K C)
    (gaussian : σ → K × σ) (G : Globals K) (x0 xf : K)
    (h0 : 0 ≤ G.TIME_STEPS) (h1 : G.TIME_STEPS ≤ 2147483646) (l : List Nat)
    (st : List (Path K C) × σ) :
    generatePaths.loop N gaussian G x0 xf l st
      = (l.foldl (fun (s : List (Path K C) × σ) (_ : Nat) =>
            (s.1 ++ [scorePath N G (generateRandomPath.result gaussian G x0 xf s.2).1],
              (generateRandomPath.result gaussian G x0 xf s.2).2)) st, false) := by
  induction l generalizing st with
  | nil => rfl
  | cons i l ih =>
    rw [generatePaths.loop, step_of_range N gaussian G x0 xf st i h0 h1]
    simp only [List.foldl_cons]
    exact ih _

/-- The sampling loop when `generateRandomPath` throws: it ends at the first
index, by the exception, with `paths` and `rng` untouched. -/
theorem sample_loop_of_not_range {K C σ : Type} [LinearOrderedField K] (N : Numerics K C)
    (gaussian : σ → K × σ) (G : Globals K) (x0 xf : K)
    (h : ¬ (0 ≤ G.TIME_STEPS ∧ G.TIME_STEPS ≤ 2147483646)) (i : Nat) (l : List Nat)
    (st : List (Path K C) × σ) :
    generatePaths.loop N gaussian G x0 xf (i :: l) st = (st, true) := by
  rw [generatePaths.loop, step_of_not_range N gaussian G x0 xf st i h]

theorem sample_amplitude {K C σ : Type} [LinearOrderedField K] (N : Numerics K C)
    (gaussian : σ → K × σ) (G : Globals K) (g : σ) :
    ∀ p ∈ (generatePaths.sample N gaussian G g).1,
      p.amplitude = rawAmplitude N G p.action ∧ p.action = calculateAction G p.positions :=
  sample_loop_forall N gaussian G _ _ _ (fun _ _ _ => ⟨rfl, rfl⟩) _ ([], g) (by simp)

/-- When the first loop of `generatePaths` ends by an exception it leaves no
trajectory in `paths`. -/
theorem sample_of_throws {K C σ : Type} [LinearOrderedField K] (N : Numerics K C)
    (gaussian : σ → K × σ) (G : Globals K) (g : σ)
    (h : generatePaths.throws N gaussian G g = true) :
    (generatePaths.sample N gaussian G g).1 = [] := by
  by_cases hr : 0 ≤ G.TIME_STEPS ∧ G.TIME_STEPS ≤ 2147483646
  · simp only [generatePaths.throws, generatePaths.run,
      sample_loop_of_range N gaussian G _ _ hr.1 hr.2] at h
    exact absurd h (by simp)
  · simp only [generatePaths.sample, generatePaths.run]
    cases hl : List.range G.NUM_PATHS.toNat with
    | nil => rfl
    | cons i l => rw [sample_loop_of_not_range N gaussian G _ _ hr]

/-- When `TIME_STEPS + 1` is an `int` the first loop of `generatePaths` does not
throw. -/
theorem throws_of_range {K C σ : Type} [LinearOrderedField K] (N : Numerics K C)
    (gaussian : σ → K × σ) (G : Globals K) (g : σ)
    (h0 : 0 ≤ G.TIME_STEPS) (h1 : G.TIME_STEPS ≤ 2147483646) :
    generatePaths.throws N gaussian G g = false := by
  simp only [generatePaths.throws, generatePaths.run, sample_loop_of_range N gaussian G _ _ h0 h1]

/-- Outside the range `0 ≤ TIME_STEPS ≤ 2147483646` and with at least one path
to sample, the first loop of `generatePaths` ends by the exception of
`generateRandomPath`. -/
theorem throws_of_not_range {K C σ : Type} [LinearOrderedField K] (N : Numerics K C)
    (gaussian : σ → K × σ) (G : Globals K) (g : σ)
    (h : ¬ (0 ≤ G.TIME_STEPS ∧ G.TIME_STEPS ≤ 2147483646)) (hN : 1 ≤ G.NUM_PATHS) :
    generatePaths.throws N gaussian G g = true := by
  simp only [generatePaths.throws, generatePaths.run]
  cases hl : List.range G.NUM_PATHS.toNat with
  | nil =>
    have := congrArg List.length hl
    rw [List.length_range, List.length_nil] at this
    omega
  | cons i l => rw [sample_loop_of_not_range N gaussian G _ _ h]

/-- The ensemble that `generatePaths` of `main_web.cpp` leaves.  An exception
leaves no trajectory, and then the sampled list and its division by `sum` are
both empty. -/
theorem web_generatePaths_paths {K C σ : Type} [LinearOrderedField K] [Field C]
    (N : Numerics K C) (gaussian : σ → K × σ) (G : Globals K)
    (sim : PathIntegralSimulation K C σ) :
    (Web.generatePaths N gaussian G sim).paths
      = if N.abs (generatePaths.sum (generatePaths.sample N gaussian G sim.rng).1) > 1e-10 then
          generatePaths.normalize (generatePaths.sum (generatePaths.sample N gaussian G sim.rng).1)
            (generatePaths.sample N gaussian G sim.rng).1
        else (generatePaths.sample N gaussian G sim.rng).1 := by
  simp only [Web.generatePaths]
  cases ht : generatePaths.throws N gaussian G sim.rng with
  | false => simp
  | true =>
    rw [sample_of_throws N gaussian G sim.rng ht]
    simp [generatePaths.normalize]

/-- The ensemble that `generatePaths` of `main.cpp` leaves: the sampled list
with every amplitude divided by `sum`. -/
theorem desktop_generatePaths_paths {K C σ : Type} [LinearOrderedField K] [Field C]
    (N : Numerics K C) (gaussian : σ → K × σ) (sim : Desktop.PathIntegralSimulation K C σ) :
    (Desktop.generatePaths N gaussian sim).paths
      = generatePaths.normalize
          (generatePaths.sum (generatePaths.sample N gaussian Desktop.globals sim.rng).1)
          (generatePaths.sample N gaussian Desktop.globals sim.rng).1 := by
  simp only [Desktop.generatePaths]
  cases ht : generatePaths.throws N gaussian Desktop.globals sim.rng with
  | false => simp
  | true =>
    rw [sample_of_throws N gaussian Desktop.globals sim.rng ht]
    simp [generatePaths.normalize]

end Amp

section Real
variable {σ : Type}

theorem rawAmplitude_std (G : Globals ℝ) (S : ℝ) :
    rawAmplitude ⟨Complex.mk, Complex.exp, fun z => Complex.abs z⟩ G S
      = Complex.exp (((-S / G.HBAR : ℝ) : ℂ) * Complex.I) := by
  simp only [rawAmplitude]
  congr 1
  apply Complex.ext <;> simp

/-- Claim C6: for every real action `S` and every `HBAR > 0` the amplitude
assigned before normalisation, `exp` of the complex number `(0, -S / HBAR)`, has
magnitude exactly 1 and equals `cos (S / HBAR) - i * sin (S / HBAR)`. -/
theorem rawAmplitude_unit (G : Globals ℝ) (S : ℝ) (_hH : 0 < G.HBAR) :
    Complex.abs (rawAmplitude ⟨Complex.mk, Complex.exp, fun z => Complex.abs z⟩ G S) = 1 ∧
    rawAmplitude ⟨Complex.mk, Complex.exp, fun z => Complex.abs z⟩ G S
      = Complex.mk (Real.cos (S / G.HBAR)) (-Real.sin (S / G.HBAR)) := by
  rw [rawAmplitude_std]
  refine ⟨Complex.abs_exp_ofReal_mul_I _, ?_⟩
  apply Complex.ext
  · rw [Complex.exp_ofReal_mul_I_re, neg_div, Real.cos_neg]
  · rw [Complex.exp_ofReal_mul_I_im, neg_div, Real.sin_neg]


theorem abs_exp_mk_zero (θ : ℝ) : Complex.abs (Complex.exp ⟨0, θ⟩) = 1 := by
  rw [Complex.abs_exp, Real.exp_zero]

theorem rawSum_eq (gaussian : σ → ℝ × σ) (G : Globals ℝ) (g : σ) :
    generatePaths.sum
        (generatePaths.sample ⟨Complex.mk, Complex.exp, fun z => Complex.abs z⟩ gaussian G g).1
      = ((generatePaths.sample ⟨Complex.mk, Complex.exp, fun z => Complex.abs z⟩ gaussian G g).1.map
          (fun p => Complex.exp ⟨0, -p.action / G.HBAR⟩)).sum := by
  rw [generatePaths_sum_eq]
  congr 1
  apply List.map_congr_left
  intro p hp
  exact (sample_amplitude _ gaussian G g p hp).1

/-- Claim C1: in `generatePaths` of the web variant, if the sum of the raw
amplitudes `exp (-i * action / HBAR)` of the generated trajectories has magnitude
above `1e-10`, the stored amplitudes sum to `1`, so their sum has magnitude 1. -/
theorem generatePaths_normalized (gaussian : σ → ℝ × σ) (G : Globals ℝ)
    (sim : PathIntegralSimulation ℝ ℂ σ)
    (h : 1e-10 < Complex.abs
      (((generatePaths.sample ⟨Complex.mk, Complex.exp, fun z => Complex.abs z⟩ gaussian G
            sim.rng).1.map (fun p => Complex.exp ⟨0, -p.action / G.HBAR⟩)).sum)) :
    ((Web.generatePaths ⟨Complex.mk, Complex.exp, fun z => Complex.abs z⟩ gaussian G sim).paths.map
        (fun p => p.amplitude)).sum = 1 ∧
    Complex.abs
      ((Web.generatePaths ⟨Complex.mk, Complex.exp, fun z => Complex.abs z⟩ gaussian G sim).paths.map
        (fun p => p.amplitude)).sum = 1 := by
  rw [← rawSum_eq] at h
  have hne : generatePaths.sum
      (generatePaths.sample ⟨Complex.mk, Complex.exp, fun z => Complex.abs z⟩ gaussian G
        sim.rng).1 ≠ 0 := by
    intro h0
    rw [h0, map_zero] at h
    norm_num at h
  have key : ((Web.generatePaths ⟨Complex.mk, Complex.exp, fun z => Complex.abs z⟩ gaussian G
      sim).paths.map (fun p => p.amplitude)).sum = 1 := by
    rw [web_generatePaths_paths, if_pos h, normalize_sum, ← generatePaths_sum_eq, div_self hne]
  exact ⟨key, by rw [key, map_one]⟩

/-- Claim C2: in `generatePaths` of the web variant, if the sum of the raw
amplitudes has magnitude at most `1e-10`, normalisation is skipped: the stored
ensemble is the sampled one and every stored amplitude is the raw value
`exp (-i * action / HBAR)`. -/
theorem generatePaths_skip (gaussian : σ → ℝ × σ) (G : Globals ℝ)
    (sim : PathIntegralSimulation ℝ ℂ σ)
    (h : Complex.abs
      (((generatePaths.sample ⟨Complex.mk, Complex.exp, fun z => Complex.abs z⟩ gaussian G
            sim.rng).1.map (fun p => Complex.exp ⟨0, -p.action / G.HBAR⟩)).sum) ≤ 1e-10) :
    (Web.generatePaths ⟨Complex.mk, Complex.exp, fun z => Complex.abs z⟩ gaussian G sim).paths
      = (generatePaths.sample ⟨Complex.mk, Complex.exp, fun z => Complex.abs z⟩ gaussian G
          sim.rng).1 ∧
    ∀ p ∈ (Web.generatePaths ⟨Complex.mk, Complex.exp, fun z => Complex.abs z⟩ gaussian G
        sim).paths, p.amplitude = Complex.exp ⟨0, -p.action / G.HBAR⟩ := by
  rw [← rawSum_eq] at h
  have key : (Web.generatePaths ⟨Complex.mk, Complex.exp, fun z => Complex.abs z⟩ gaussian G
      sim).paths = (generatePaths.sample ⟨Complex.mk, Complex.exp, fun z => Complex.abs z⟩
        gaussian G sim.rng).1 := by
    rw [web_generatePaths_paths, if_neg (not_lt.mpr h)]
  refine ⟨key, fun p hp => ?_⟩
  rw [key] at hp
  exact (sample_amplitude _ gaussian G sim.rng p hp).1


theorem sample_singleton :
    (generatePaths.sample ⟨Complex.mk, Complex.exp, fun z => Complex.abs z⟩ zeroGaussian
        (singletonGlobals : Globals ℝ) ()).1
      = [{ positions := [-2, 2], amplitude := Complex.exp ⟨0, -(399 / 5) / 1⟩, action := 399 / 5 }] := by
  rw [generatePaths.sample, generatePaths.run,
    sample_loop_of_range _ _ _ _ _ (by norm_num [singletonGlobals])
      (by norm_num [singletonGlobals])]
  norm_num [scorePath, generateRandomPath.result, generateRandomPath, assignAt, wrapInt,
    calculateAction, calculateAction.step, V, rawAmplitude, singletonGlobals, List.range', List.range, List.range.loop,
    Int.toNat, List.replicate, List.set]

theorem sample_twoPath (hbar : ℝ) :
    (generatePaths.sample ⟨Complex.mk, Complex.exp, fun z => Complex.abs z⟩ zeroThenTwo
        (twoPathGlobals hbar) 0).1
      = [{ positions := [-2, 0, 2], amplitude := Complex.exp ⟨0, -2 / hbar⟩, action := 2 },
         { positions := [-2, 1, 2], amplitude := Complex.exp ⟨0, -(5 / 2) / hbar⟩, action := 5 / 2 }] := by
  rw [generatePaths.sample, generatePaths.run,
    sample_loop_of_range _ _ _ _ _ (by norm_num [twoPathGlobals])
      (by norm_num [twoPathGlobals])]
  norm_num [scorePath, generateRandomPath.result, generateRandomPath, assignAt, wrapInt,
    generateRandomPath.step, calculateAction,
    calculateAction.step, V, rawAmplitude, twoPathGlobals, zeroThenTwo, List.range', List.range, List.range.loop,
    Int.toNat, List.replicate, List.set]

theorem exp_neg_four_pi : Complex.exp ⟨0, -2 / (1 / (2 * Real.pi))⟩ = 1 := by
  have e : (⟨0, -2 / (1 / (2 * Real.pi))⟩ : ℂ) = ((-2 : ℤ) : ℂ) * (2 * Real.pi * Complex.I) := by
    apply Complex.ext
    · simp
    · simp only [Complex.add_im, Complex.mul_im, Complex.mul_re, Complex.intCast_re,
        Complex.intCast_im, Complex.ofReal_re, Complex.ofReal_im, Complex.I_re, Complex.I_im,
        Complex.re_ofNat, Complex.im_ofNat]
      field_simp
  rw [e, Complex.exp_int_mul_two_pi_mul_I]

theorem exp_neg_five_pi : Complex.exp ⟨0, -(5 / 2) / (1 / (2 * Real.pi))⟩ = -1 := by
  have e : (⟨0, -(5 / 2) / (1 / (2 * Real.pi))⟩ : ℂ)
      = Real.pi * Complex.I + ((-3 : ℤ) : ℂ) * (2 * Real.pi * Complex.I) := by
    apply Complex.ext
    · simp
    · simp only [Complex.add_im, Complex.mul_im, Complex.mul_re, Complex.intCast_re,
        Complex.intCast_im, Complex.ofReal_re, Complex.ofReal_im, Complex.I_re, Complex.I_im,
        Complex.re_ofNat, Complex.im_ofNat]
      field_simp
      ring
  rw [e, Complex.exp_add, Complex.exp_int_mul_two_pi_mul_I, Complex.exp_pi_mul_I, mul_one]

/-- Witness of C1: one path of one time step; the raw sum is a single unit phase. -/
theorem generatePaths_normalized_witness :
    1e-10 < Complex.abs
      (((generatePaths.sample ⟨Complex.mk, Complex.exp, fun z => Complex.abs z⟩ zeroGaussian
            (singletonGlobals : Globals ℝ) (Web.memberInit () : PathIntegralSimulation ℝ ℂ Unit).rng).1.map
          (fun p => Complex.exp ⟨0, -p.action / (singletonGlobals : Globals ℝ).HBAR⟩)).sum) ∧
    ((Web.generatePaths ⟨Complex.mk, Complex.exp, fun z => Complex.abs z⟩ zeroGaussian
        (singletonGlobals : Globals ℝ) (Web.memberInit ())).paths.map
        (fun p => p.amplitude)).sum = 1 ∧
    Complex.abs
      ((Web.generatePaths ⟨Complex.mk, Complex.exp, fun z => Complex.abs z⟩ zeroGaussian
        (singletonGlobals : Globals ℝ) (Web.memberInit ())).paths.map
        (fun p => p.amplitude)).sum = 1 :=
  have h : 1e-10 < Complex.abs
      (((generatePaths.sample ⟨Complex.mk, Complex.exp, fun z => Complex.abs z⟩ zeroGaussian
            (singletonGlobals : Globals ℝ) (Web.memberInit () : PathIntegralSimulation ℝ ℂ Unit).rng).1.map
          (fun p => Complex.exp ⟨0, -p.action / (singletonGlobals : Globals ℝ).HBAR⟩)).sum) := by
    rw [show (Web.memberInit () : PathIntegralSimulation ℝ ℂ Unit).rng = () from rfl, sample_singleton]
    simp only [List.map_cons, List.map_nil, List.sum_cons, List.sum_nil, add_zero,
      abs_exp_mk_zero]
    norm_num
  ⟨h, generatePaths_normalized zeroGaussian singletonGlobals (Web.memberInit ()) h⟩

/-- Witness of C2: two paths whose phases differ by `π`, so the raw sum is `0`. -/
theorem generatePaths_skip_witness :
    Complex.abs
      (((generatePaths.sample ⟨Complex.mk, Complex.exp, fun z => Complex.abs z⟩ zeroThenTwo
            (twoPathGlobals (1 / (2 * Real.pi))) (Web.memberInit 0 : PathIntegralSimulation ℝ ℂ Nat).rng).1.map
          (fun p => Complex.exp ⟨0, -p.action / (twoPathGlobals (1 / (2 * Real.pi))).HBAR⟩)).sum)
        ≤ 1e-10 ∧
    (Web.generatePaths ⟨Complex.mk, Complex.exp, fun z => Complex.abs z⟩ zeroThenTwo
        (twoPathGlobals (1 / (2 * Real.pi))) (Web.memberInit 0)).paths
      = (generatePaths.sample ⟨Complex.mk, Complex.exp, fun z => Complex.abs z⟩ zeroThenTwo
          (twoPathGlobals (1 / (2 * Real.pi))) (Web.memberInit 0 : PathIntegralSimulation ℝ ℂ Nat).rng).1 ∧
    ∀ p ∈ (Web.generatePaths ⟨Complex.mk, Complex.exp, fun z => Complex.abs z⟩ zeroThenTwo
        (twoPathGlobals (1 / (2 * Real.pi))) (Web.memberInit 0)).paths,
      p.amplitude = Complex.exp ⟨0, -p.action / (twoPathGlobals (1 / (2 * Real.pi))).HBAR⟩ :=
  have h : Complex.abs
      (((generatePaths.sample ⟨Complex.mk, Complex.exp, fun z => Complex.abs z⟩ zeroThenTwo
            (twoPathGlobals (1 / (2 * Real.pi))) (Web.memberInit 0 : PathIntegralSimulation ℝ ℂ Nat).rng).1.map
          (fun p => Complex.exp ⟨0, -p.action / (twoPathGlobals (1 / (2 * Real.pi))).HBAR⟩)).sum)
        ≤ 1e-10 := by
    rw [show (Web.memberInit 0 : PathIntegralSimulation ℝ ℂ Nat).rng = 0 from rfl, sample_twoPath]
    simp only [List.map_cons, List.map_nil, List.sum_cons, List.sum_nil, add_zero,
      twoPathGlobals, exp_neg_four_pi, exp_neg_five_pi]
    norm_num
  ⟨h, generatePaths_skip zeroThenTwo (twoPathGlobals (1 / (2 * Real.pi))) (Web.memberInit 0) h⟩

/-- Witness of C6: the action `399 / 5` under the initial globals of the web
variant, where `HBAR = 1`. -/
theorem rawAmplitude_unit_witness :
    0 < (Web.initialGlobals : Globals ℝ).HBAR ∧
    Complex.abs (rawAmplitude ⟨Complex.mk, Complex.exp, fun z => Complex.abs z⟩
      (Web.initialGlobals : Globals ℝ) (399 / 5)) = 1 ∧
    rawAmplitude ⟨Complex.mk, Complex.exp, fun z => Complex.abs z⟩
        (Web.initialGlobals : Globals ℝ) (399 / 5)
      = Complex.mk (Real.cos (399 / 5 / (Web.initialGlobals : Globals ℝ).HBAR))
          (-Real.sin (399 / 5 / (Web.initialGlobals : Globals ℝ).HBAR)) :=
  ⟨by norm_num [Web.initialGlobals],
    rawAmplitude_unit Web.initialGlobals (399 / 5) (by norm_num [Web.initialGlobals])⟩

end Real

/-! ## The controller of the web variant -/

section Controller

variable {K C σ : Type} [LinearOrderedField K] [Field C]

/-- Claim C7: every validated setter called with an out-of-range value returns
the program state it was given: parameters, ensemble and generator state are
those before the call, and nothing is regenerated. -/
theorem setters_reject (N : Numerics K C) (gaussian : σ → K × σ) (s : Web.State K C σ)
    (v : K) (steps paths : Int) (hv : v ≤ 0) (hsteps : steps ≤ 0)
    (hpaths : paths ≤ 0 ∨ 2000 < paths) :
    Web.setHbar N gaussian s v = s ∧
    Web.setMass N gaussian s v = s ∧
    Web.setDt N gaussian s v = s ∧
    Web.setDx N gaussian s v = s ∧
    Web.setTimeSteps N gaussian s steps = s ∧
    Web.setNumPaths N gaussian s paths = s := by
  have hv' : ¬ v > 0 := not_lt.mpr hv
  have hs' : ¬ steps > 0 := not_lt.mpr hsteps
  have hp' : ¬ (paths > 0 ∧ paths ≤ 2000) := by omega
  refine ⟨?_, ?_, ?_, ?_, ?_, ?_⟩
  · rw [Web.setHbar, if_neg hv']
  · rw [Web.setMass, if_neg hv']
  · rw [Web.setDt, if_neg hv']
  · rw [Web.setDx, if_neg hv']
  · rw [Web.setTimeSteps, if_neg hs']
  · rw [Web.setNumPaths, if_neg hp']

/-- Claim C8: every setter called with an accepted value replaces exactly the
global it names, keeps the other globals, and leaves the simulation object as
`generatePaths` makes it from the object before the call (so from the pre-call
generator state) under the updated globals. -/
theorem setters_accept (N : Numerics K C) (gaussian : σ → K × σ) (s : Web.State K C σ)
    (v : K) (size steps paths : Int) (hv : 0 < v) (hsteps : 0 < steps)
    (hpaths : 1 ≤ paths ∧ paths ≤ 2000) :
    Web.setHbar N gaussian s v
      = { G := { s.G with HBAR := v },
          sim := Web.generatePaths N gaussian { s.G with HBAR := v } s.sim } ∧
    Web.setMass N gaussian s v
      = { G := { s.G with MASS := v },
          sim := Web.generatePaths N gaussian { s.G with MASS := v } s.sim } ∧
    Web.setDt N gaussian s v
      = { G := { s.G with DT := v },
          sim := Web.generatePaths N gaussian { s.G with DT := v } s.sim } ∧
    Web.setDx N gaussian s v
      = { G := { s.G with DX := v },
          sim := Web.generatePaths N gaussian { s.G with DX := v } s.sim } ∧
    Web.setTimeSteps N gaussian s steps
      = { G := { s.G with TIME_STEPS := steps },
          sim := Web.generatePaths N gaussian { s.G with TIME_STEPS := steps } s.sim } ∧
    Web.setNumPaths N gaussian s paths
      = { G := { s.G with NUM_PATHS := paths },
          sim := Web.generatePaths N gaussian { s.G with NUM_PATHS := paths } s.sim } ∧
    Web.setLatticeSize N gaussian s size
      = { G := { s.G with LATTICE_SIZE := size },
          sim := Web.generatePaths N gaussian { s.G with LATTICE_SIZE := size } s.sim } := by
  have hp' : paths > 0 ∧ paths ≤ 2000 := by omega
  refine ⟨?_, ?_, ?_, ?_, ?_, ?_, rfl⟩
  · rw [Web.setHbar, if_pos hv]
  · rw [Web.setMass, if_pos hv]
  · rw [Web.setDt, if_pos hv]
  · rw [Web.setDx, if_pos hv]
  · rw [Web.setTimeSteps, if_pos hsteps]
  · rw [Web.setNumPaths, if_pos hp']

end Controller

/-- Witness of C7 on the freshly constructed web simulation over `ℝ`. -/
theorem setters_reject_witness :
    ((-1 : ℝ) ≤ 0 ∧ (0 : Int) ≤ 0 ∧ ((2001 : Int) ≤ 0 ∨ (2000 : Int) < 2001)) ∧
    Web.setHbar ⟨Complex.mk, Complex.exp, fun z => Complex.abs z⟩ zeroGaussian
        (Web.start ⟨Complex.mk, Complex.exp, fun z => Complex.abs z⟩ zeroGaussian ()) (-1)
      = Web.start ⟨Complex.mk, Complex.exp, fun z => Complex.abs z⟩ zeroGaussian () ∧
    Web.setMass ⟨Complex.mk, Complex.exp, fun z => Complex.abs z⟩ zeroGaussian
        (Web.start ⟨Complex.mk, Complex.exp, fun z => Complex.abs z⟩ zeroGaussian ()) (-1)
      = Web.start ⟨Complex.mk, Complex.exp, fun z => Complex.abs z⟩ zeroGaussian () ∧
    Web.setDt ⟨Complex.mk, Complex.exp, fun z => Complex.abs z⟩ zeroGaussian
        (Web.start ⟨Complex.mk, Complex.exp, fun z => Complex.abs z⟩ zeroGaussian ()) (-1)
      = Web.start ⟨Complex.mk, Complex.exp, fun z => Complex.abs z⟩ zeroGaussian () ∧
    Web.setDx ⟨Complex.mk, Complex.exp, fun z => Complex.abs z⟩ zeroGaussian
        (Web.start ⟨Complex.mk, Complex.exp, fun z => Complex.abs z⟩ zeroGaussian ()) (-1)
      = Web.start ⟨Complex.mk, Complex.exp, fun z => Complex.abs z⟩ zeroGaussian () ∧
    Web.setTimeSteps ⟨Complex.mk, Complex.exp, fun z => Complex.abs z⟩ zeroGaussian
        (Web.start ⟨Complex.mk, Complex.exp, fun z => Complex.abs z⟩ zeroGaussian ()) 0
      = Web.start ⟨Complex.mk, Complex.exp, fun z => Complex.abs z⟩ zeroGaussian () ∧
    Web.setNumPaths ⟨Complex.mk, Complex.exp, fun z => Complex.abs z⟩ zeroGaussian
        (Web.start ⟨Complex.mk, Complex.exp, fun z => Complex.abs z⟩ zeroGaussian ()) 2001
      = Web.start ⟨Complex.mk, Complex.exp, fun z => Complex.abs z⟩ zeroGaussian () :=
  ⟨⟨by norm_num, by decide, by decide⟩,
    setters_reject ⟨Complex.mk, Complex.exp, fun z => Complex.abs z⟩ zeroGaussian
      (Web.start ⟨Complex.mk, Complex.exp, fun z => Complex.abs z⟩ zeroGaussian ()) (-1) 0 2001
      (by norm_num) (by decide) (by decide)⟩

/-- Witness of C8 on the freshly constructed web simulation over `ℝ`. -/
theorem setters_accept_witness :
    ((0 : ℝ) < 2 ∧ (0 : Int) < 3 ∧ ((1 : Int) ≤ 10 ∧ (10 : Int) ≤ 2000)) ∧
    Web.setHbar ⟨Complex.mk, Complex.exp, fun z => Complex.abs z⟩ zeroGaussian (Web.start ⟨Complex.mk, Complex.exp, fun z => Complex.abs z⟩ zeroGaussian ()) 2
      = { G := { (Web.initialGlobals : Globals ℝ) with HBAR := 2 },
          sim := Web.generatePaths ⟨Complex.mk, Complex.exp, fun z => Complex.abs z⟩ zeroGaussian
            { (Web.initialGlobals : Globals ℝ) with HBAR := 2 }
            (Web.start ⟨Complex.mk, Complex.exp, fun z => Complex.abs z⟩ zeroGaussian ()).sim } ∧
    Web.setTimeSteps ⟨Complex.mk, Complex.exp, fun z => Complex.abs z⟩ zeroGaussian (Web.start ⟨Complex.mk, Complex.exp, fun z => Complex.abs z⟩ zeroGaussian ()) 3
      = { G := { (Web.initialGlobals : Globals ℝ) with TIME_STEPS := 3 },
          sim := Web.generatePaths ⟨Complex.mk, Complex.exp, fun z => Complex.abs z⟩ zeroGaussian
            { (Web.initialGlobals : Globals ℝ) with TIME_STEPS := 3 }
            (Web.start ⟨Complex.mk, Complex.exp, fun z => Complex.abs z⟩ zeroGaussian ()).sim } ∧
    Web.setNumPaths ⟨Complex.mk, Complex.exp, fun z => Complex.abs z⟩ zeroGaussian (Web.start ⟨Complex.mk, Complex.exp, fun z => Complex.abs z⟩ zeroGaussian ()) 10
      = { G := { (Web.initialGlobals : Globals ℝ) with NUM_PATHS := 10 },
          sim := Web.generatePaths ⟨Complex.mk, Complex.exp, fun z => Complex.abs z⟩ zeroGaussian
            { (Web.initialGlobals : Globals ℝ) with NUM_PATHS := 10 }
            (Web.start ⟨Complex.mk, Complex.exp, fun z => Complex.abs z⟩ zeroGaussian ()).sim } :=
  have h := setters_accept ⟨Complex.mk, Complex.exp, fun z => Complex.abs z⟩ zeroGaussian (Web.start ⟨Complex.mk, Complex.exp, fun z => Complex.abs z⟩ zeroGaussian ()) 2 7 3 10
    (by norm_num) (by decide) (by decide)
  ⟨⟨by norm_num, by decide, by decide⟩, h.1, h.2.2.2.2.1, h.2.2.2.2.2.1⟩

/-! ## The controller invariant -/

theorem foldl_push_length {α β : Type} (f : β → α) (h : β → β) (l : List Nat)
    (st : List α × β) :
    (l.foldl (fun (s : List α × β) (_ : Nat) => (s.1 ++ [f s.2], h s.2)) st).1.length
      = st.1.length + l.length := by
  induction l generalizing st with
  | nil => simp
  | cons i l ih =>
    rw [List.foldl_cons, ih]
    simp
    omega

theorem sample_length {K C σ : Type} [LinearOrderedField K] (N : Numerics K C)
    (gaussian : σ → K × σ) (G : Globals K) (g : σ)
    (h0 : 0 ≤ G.TIME_STEPS) (h1 : G.TIME_STEPS ≤ 2147483646) :
    (generatePaths.sample N gaussian G g).1.length = G.NUM_PATHS.toNat := by
  simp only [generatePaths.sample, generatePaths.run, sample_loop_of_range N gaussian G _ _ h0 h1]
  rw [foldl_push_length (fun s => scorePath N G (generateRandomPath.result gaussian G _ _ s).1)
    (fun s => (generateRandomPath.result gaussian G _ _ s).2), List.length_range,
    List.length_nil, zero_add]

theorem sample_shape {K C σ : Type} [LinearOrderedField K] (N : Numerics K C)
    (gaussian : σ → K × σ) (G : Globals K) (g : σ) (hT : 1 ≤ G.TIME_STEPS) :
    ∀ p ∈ (generatePaths.sample N gaussian G g).1,
      (p.positions.length : Int) = G.TIME_STEPS + 1 ∧
      p.positions.head? = some (-2.0) ∧ p.positions.getLast? = some 2.0 :=
  sample_loop_forall N gaussian G _ _ _
    (fun g' r hr => by
      have h := generateRandomPath_spec gaussian G (-2.0) 2.0 g' hT
        (generateRandomPath_of_some gaussian G _ _ g' r hr).1.2
      rw [(generateRandomPath_of_some gaussian G _ _ g' r hr).2]
      exact ⟨h.1, h.2.1, h.2.2.1⟩) _ ([], g) (by simp)

theorem normalize_length {K C : Type} [Field C] (sum : C) (paths : List (Path K C)) :
    (generatePaths.normalize sum paths).length = paths.length := by
  simp only [generatePaths.normalize, List.length_map]

theorem normalize_forall {K C : Type} [Field C] (sum : C) (paths : List (Path K C)) (P : List K → Prop)
    (h : ∀ p ∈ paths, P p.positions) :
    ∀ p ∈ generatePaths.normalize sum paths, P p.positions := by
  intro p hp
  simp only [generatePaths.normalize, List.mem_map] at hp
  obtain ⟨q, hq, rfl⟩ := hp
  exact h q hq

section Inv

variable {K C σ : Type} [LinearOrderedField K] [Field C]

/-- A regeneration under admitted globals with `TIME_STEPS + 1` an `int` yields
a matching ensemble. -/
theorem generatePaths_ensembleOK (N : Numerics K C) (gaussian : σ → K × σ) (G : Globals K)
    (sim : PathIntegralSimulation K C σ) (hG : Web.ParamsOK G)
    (h1 : G.TIME_STEPS ≤ 2147483646) :
    Web.EnsembleOK G (Web.generatePaths N gaussian G sim).paths := by
  obtain ⟨hT, hN, -⟩ := hG
  have hs := sample_shape N gaussian G sim.rng hT
  have hl := sample_length N gaussian G sim.rng (by omega) h1
  rw [web_generatePaths_paths]
  split
  · refine ⟨?_, normalize_forall _ _
      (fun l => (l.length : Int) = G.TIME_STEPS + 1 ∧ l.head? = some (-2.0) ∧
        l.getLast? = some 2.0) hs⟩
    rw [normalize_length, hl]
    omega
  · refine ⟨?_, hs⟩
    rw [hl]
    omega

/-- A regeneration under admitted globals with `TIME_STEPS` above `2147483646`
ends by the exception of `generateRandomPath` and leaves the ensemble empty. -/
theorem generatePaths_overflow (N : Numerics K C) (gaussian : σ → K × σ) (G : Globals K)
    (sim : PathIntegralSimulation K C σ) (hG : Web.ParamsOK G)
    (h1 : 2147483646 < G.TIME_STEPS) :
    generatePaths.throws N gaussian G sim.rng = true ∧
    (Web.generatePaths N gaussian G sim).paths = [] := by
  have ht := throws_of_not_range N gaussian G sim.rng (by omega) hG.2.1
  refine ⟨ht, ?_⟩
  rw [web_generatePaths_paths, sample_of_throws N gaussian G sim.rng ht]
  simp [generatePaths.normalize]

theorem regenerate_invariant (N : Numerics K C) (gaussian : σ → K × σ) (G : Globals K)
    (sim : PathIntegralSimulation K C σ) (hG : Web.ParamsOK G) :
    Web.Invariant { G := G, sim := Web.generatePaths N gaussian G sim } :=
  ⟨hG, fun h1 => generatePaths_ensembleOK N gaussian G sim hG h1,
    fun h1 => (generatePaths_overflow N gaussian G sim hG h1).2⟩

theorem initialGlobals_ok : Web.ParamsOK (Web.initialGlobals : Globals K) := by
  simp only [Web.ParamsOK, Web.initialGlobals]
  norm_num

theorem start_invariant (N : Numerics K C) (gaussian : σ → K × σ) (seed : σ) :
    Web.Invariant (Web.start N gaussian seed) :=
  regenerate_invariant N gaussian _ _ initialGlobals_ok

theorem call_invariant (N : Numerics K C) (gaussian : σ → K × σ) (s : Web.State K C σ)
    (c : Web.Call K) (hs : Web.Invariant s) : Web.Invariant (Web.call N gaussian s c) := by
  obtain ⟨hG, hE⟩ := hs
  have hG' := hG
  obtain ⟨h1, h2, h3, h4, h5, h6, h7⟩ := hG'
  cases c with
  | update =>
    simp only [Web.call, Web.update]
    split
    · exact regenerate_invariant N gaussian _ _ hG
    · exact ⟨hG, hE⟩
  | generatePaths => exact regenerate_invariant N gaussian _ _ hG
  | keyPressed key =>
    simp only [Web.call, Web.keyPressed]
    split
    · exact regenerate_invariant N gaussian _ _ hG
    · exact ⟨hG, hE⟩
  | mouseClick x y => exact regenerate_invariant N gaussian _ _ hG
  | setCanvasSize w h => exact ⟨hG, hE⟩
  | setLatticeSize size =>
    exact regenerate_invariant N gaussian _ _ ⟨h1, h2, h3, h4, h5, h6, h7⟩
  | setTimeSteps steps =>
    simp only [Web.call, Web.setTimeSteps]
    split
    · rename_i h
      exact regenerate_invariant N gaussian _ _ ⟨by simpa using h, h2, h3, h4, h5, h6, h7⟩
    · exact ⟨hG, hE⟩
  | setNumPaths paths =>
    simp only [Web.call, Web.setNumPaths]
    split
    · rename_i h
      exact regenerate_invariant N gaussian _ _ ⟨h1, by simpa using h.1, h.2, h4, h5, h6, h7⟩
    · exact ⟨hG, hE⟩
  | setHbar v =>
    simp only [Web.call, Web.setHbar]
    split
    · rename_i h
      exact regenerate_invariant N gaussian _ _ ⟨h1, h2, h3, h, h5, h6, h7⟩
    · exact ⟨hG, hE⟩
  | setMass v =>
    simp only [Web.call, Web.setMass]
    split
    · rename_i h
      exact regenerate_invariant N gaussian _ _ ⟨h1, h2, h3, h4, h, h6, h7⟩
    · exact ⟨hG, hE⟩
  | setDt v =>
    simp only [Web.call, Web.setDt]
    split
    · rename_i h
      exact regenerate_invariant N gaussian _ _ ⟨h1, h2, h3, h4, h5, h, h7⟩
    · exact ⟨hG, hE⟩
  | setDx v =>
    simp only [Web.call, Web.setDx]
    split
    · rename_i h
      exact regenerate_invariant N gaussian _ _ ⟨h1, h2, h3, h4, h5, h6, h⟩
    · exact ⟨hG, hE⟩

theorem foldl_call_invariant (N : Numerics K C) (gaussian : σ → K × σ)
    (calls : List (Web.Call K)) (s : Web.State K C σ) (hs : Web.Invariant s) :
    Web.Invariant (calls.foldl (Web.call N gaussian) s) := by
  induction calls generalizing s with
  | nil => exact hs
  | cons c cs ih => exact ih _ (call_invariant N gaussian s c hs)

/-- Claim C9, amended: in every state of the web variant reached from
construction by a sequence of `update`, `generatePaths`, `keyPressed`,
`mouseClick` and setter calls, `TIME_STEPS ≥ 1`, `1 ≤ NUM_PATHS ≤ 2000`, `HBAR`,
`MASS`, `DT`, `DX` are positive; as long as `TIME_STEPS ≤ 2147483646` the
ensemble holds exactly `NUM_PATHS` trajectories and every trajectory has exactly
`TIME_STEPS + 1` positions, the first `-2.0` and the last `2.0`; and with
`TIME_STEPS` above that, which for an `int` is `2147483647`, the ensemble is
empty. -/
theorem controller_invariant (N : Numerics K C) (gaussian : σ → K × σ) (seed : σ)
    (calls : List (Web.Call K)) :
    1 ≤ (Web.run N gaussian seed calls).G.TIME_STEPS ∧
    1 ≤ (Web.run N gaussian seed calls).G.NUM_PATHS ∧
    (Web.run N gaussian seed calls).G.NUM_PATHS ≤ 2000 ∧
    0 < (Web.run N gaussian seed calls).G.HBAR ∧
    0 < (Web.run N gaussian seed calls).G.MASS ∧
    0 < (Web.run N gaussian seed calls).G.DT ∧
    0 < (Web.run N gaussian seed calls).G.DX ∧
    ((Web.run N gaussian seed calls).G.TIME_STEPS ≤ 2147483646 →
      ((Web.run N gaussian seed calls).sim.paths.length : Int)
        = (Web.run N gaussian seed calls).G.NUM_PATHS ∧
      ∀ p ∈ (Web.run N gaussian seed calls).sim.paths,
        (p.positions.length : Int) = (Web.run N gaussian seed calls).G.TIME_STEPS + 1 ∧
        p.positions.head? = some (-2.0) ∧ p.positions.getLast? = some 2.0) ∧
    (2147483646 < (Web.run N gaussian seed calls).G.TIME_STEPS →
      (Web.run N gaussian seed calls).sim.paths = []) := by
  obtain ⟨⟨h1, h2, h3, h4, h5, h6, h7⟩, h8, h9⟩ :=
    foldl_call_invariant N gaussian calls _ (start_invariant N gaussian seed)
  exact ⟨h1, h2, h3, h4, h5, h6, h7, h8, h9⟩

end Inv

/-- The program state after construction and one accepted `setTimeSteps`. -/
theorem run_setTimeSteps {K C σ : Type} [LinearOrderedField K] [Field C] (N : Numerics K C)
    (gaussian : σ → K × σ) (seed : σ) (steps : Int) (h : steps > 0) :
    Web.run N gaussian seed [Web.Call.setTimeSteps steps]
      = { G := { (Web.initialGlobals : Globals K) with TIME_STEPS := steps },
          sim := Web.generatePaths N gaussian
            { (Web.initialGlobals : Globals K) with TIME_STEPS := steps }
            (Web.start N gaussian seed).sim } := by
  simp only [Web.run, List.foldl_cons, List.foldl_nil, Web.call, Web.setTimeSteps, if_pos h]
  rfl

/-- Counterexample to C9 as stated: after construction, `setTimeSteps(2147483647)`
is accepted; `TIME_STEPS + 1` is then no `int`, `generateRandomPath` throws right
after `paths.clear()`, and the state left has `NUM_PATHS = 500` and no
trajectory. -/
theorem controller_invariant_counterexample :
    (Web.run ⟨Complex.mk, Complex.exp, fun z => Complex.abs z⟩ zeroGaussian ()
      [Web.Call.setTimeSteps 2147483647]).G.TIME_STEPS = 2147483647 ∧
    (Web.run ⟨Complex.mk, Complex.exp, fun z => Complex.abs z⟩ zeroGaussian ()
      [Web.Call.setTimeSteps 2147483647]).G.NUM_PATHS = 500 ∧
    (Web.run ⟨Complex.mk, Complex.exp, fun z => Complex.abs z⟩ zeroGaussian ()
      [Web.Call.setTimeSteps 2147483647]).sim.paths = [] ∧
    ((Web.run ⟨Complex.mk, Complex.exp, fun z => Complex.abs z⟩ zeroGaussian ()
      [Web.Call.setTimeSteps 2147483647]).sim.paths.length : Int)
      ≠ (Web.run ⟨Complex.mk, Complex.exp, fun z => Complex.abs z⟩ zeroGaussian ()
          [Web.Call.setTimeSteps 2147483647]).G.NUM_PATHS := by
  have hG : Web.ParamsOK ({ (Web.initialGlobals : Globals ℝ) with TIME_STEPS := 2147483647 }) := by
    simp only [Web.ParamsOK, Web.initialGlobals]
    norm_num
  have hp := (generatePaths_overflow ⟨Complex.mk, Complex.exp, fun z => Complex.abs z⟩
    zeroGaussian _ (Web.start ⟨Complex.mk, Complex.exp, fun z => Complex.abs z⟩
      zeroGaussian ()).sim hG (by simp)).2
  rw [run_setTimeSteps _ _ _ _ (by omega)]
  refine ⟨rfl, rfl, hp, ?_⟩
  show ((Web.generatePaths ⟨Complex.mk, Complex.exp, fun z => Complex.abs z⟩ zeroGaussian
      { (Web.initialGlobals : Globals ℝ) with TIME_STEPS := 2147483647 }
      (Web.start ⟨Complex.mk, Complex.exp, fun z => Complex.abs z⟩
        zeroGaussian ()).sim).paths.length : Int) ≠ 500
  rw [hp]
  simp

/-- Witness of the amended C9 at its two cases: after `setTimeSteps(3)` the
ensemble matches the globals, after `setTimeSteps(2147483647)` it is empty. -/
theorem controller_invariant_witness :
    ((Web.run ⟨Complex.mk, Complex.exp, fun z => Complex.abs z⟩ zeroGaussian ()
        [Web.Call.setTimeSteps 3]).G.TIME_STEPS ≤ 2147483646 ∧
      ((Web.run ⟨Complex.mk, Complex.exp, fun z => Complex.abs z⟩ zeroGaussian ()
          [Web.Call.setTimeSteps 3]).sim.paths.length : Int)
        = (Web.run ⟨Complex.mk, Complex.exp, fun z => Complex.abs z⟩ zeroGaussian ()
          [Web.Call.setTimeSteps 3]).G.NUM_PATHS ∧
      ∀ p ∈ (Web.run ⟨Complex.mk, Complex.exp, fun z => Complex.abs z⟩ zeroGaussian ()
          [Web.Call.setTimeSteps 3]).sim.paths,
        (p.positions.length : Int)
          = (Web.run ⟨Complex.mk, Complex.exp, fun z => Complex.abs z⟩ zeroGaussian ()
              [Web.Call.setTimeSteps 3]).G.TIME_STEPS + 1 ∧
        p.positions.head? = some (-2.0) ∧ p.positions.getLast? = some 2.0) ∧
    (2147483646 < (Web.run ⟨Complex.mk, Complex.exp, fun z => Complex.abs z⟩ zeroGaussian ()
        [Web.Call.setTimeSteps 2147483647]).G.TIME_STEPS ∧
      (Web.run ⟨Complex.mk, Complex.exp, fun z => Complex.abs z⟩ zeroGaussian ()
        [Web.Call.setTimeSteps 2147483647]).sim.paths = []) := by
  have h3 : (Web.run ⟨Complex.mk, Complex.exp, fun z => Complex.abs z⟩ zeroGaussian ()
      [Web.Call.setTimeSteps 3]).G.TIME_STEPS ≤ 2147483646 := by
    rw [run_setTimeSteps _ _ _ _ (by omega)]
    simp
  have hm : 2147483646 < (Web.run ⟨Complex.mk, Complex.exp, fun z => Complex.abs z⟩
      zeroGaussian () [Web.Call.setTimeSteps 2147483647]).G.TIME_STEPS := by
    rw [run_setTimeSteps _ _ _ _ (by omega)]
    simp
  exact ⟨⟨h3, (controller_invariant ⟨Complex.mk, Complex.exp, fun z => Complex.abs z⟩
      zeroGaussian () [Web.Call.setTimeSteps 3]).2.2.2.2.2.2.2.1 h3⟩,
    ⟨hm, (controller_invariant ⟨Complex.mk, Complex.exp, fun z => Complex.abs z⟩
      zeroGaussian () [Web.Call.setTimeSteps 2147483647]).2.2.2.2.2.2.2.2 hm⟩⟩

/-! ## Periodic regeneration -/

section Periodic

variable {K C σ : Type} [LinearOrderedField K] [Field C]

theorem wrapInt_succ (z : Int) : wrapInt (wrapInt z + 1) = wrapInt (z + 1) := by
  unfold wrapInt
  omega

theorem wrapInt_of_range (z : Int) (h1 : -2147483648 ≤ z) (h2 : z ≤ 2147483647) :
    wrapInt z = z := by
  unfold wrapInt
  omega

theorem tmod_eq_zero_iff_dvd (k : Nat) (m : Nat) : ((k : Int).tmod (m : Int) = 0) ↔ m ∣ k := by
  constructor
  · intro h
    exact Int.natCast_dvd_natCast.mp (Int.dvd_of_tmod_eq_zero h)
  · intro h
    exact Int.tmod_eq_zero_of_dvd (Int.natCast_dvd_natCast.mpr h)

theorem web_update_frame (N : Numerics K C) (gaussian : σ → K × σ) (s : Web.State K C σ) :
    (Web.update N gaussian s).sim.currentFrame = wrapInt (s.sim.currentFrame + 1) := by
  simp only [Web.update]
  split <;> rfl

theorem web_update_iterate_frame (N : Numerics K C) (gaussian : σ → K × σ)
    (s : Web.State K C σ) (k : Nat) :
    ((Web.update N gaussian)^[k + 1] s).sim.currentFrame
      = wrapInt (s.sim.currentFrame + ((k + 1 : Nat) : Int)) := by
  induction k with
  | zero => rw [Function.iterate_succ_apply', Function.iterate_zero, id_eq, web_update_frame]; rfl
  | succ k ih =>
    rw [Function.iterate_succ_apply', web_update_frame, ih, wrapInt_succ]
    push_cast
    rw [add_assoc]

theorem web_generatePaths_frame (N : Numerics K C) (gaussian : σ → K × σ) (G : Globals K)
    (sim : PathIntegralSimulation K C σ) :
    (Web.generatePaths N gaussian G sim).currentFrame = sim.currentFrame := rfl

theorem web_update_G (N : Numerics K C) (gaussian : σ → K × σ) (s : Web.State K C σ) :
    (Web.update N gaussian s).G = s.G := by
  simp only [Web.update]
  split <;> rfl

theorem desktop_update_frame (N : Numerics K C) (gaussian : σ → K × σ)
    (sim : Desktop.PathIntegralSimulation K C σ) :
    (Desktop.update N gaussian sim).currentFrame = wrapInt (sim.currentFrame + 1) := by
  simp only [Desktop.update]
  split <;> rfl

theorem desktop_update_iterate_frame (N : Numerics K C) (gaussian : σ → K × σ)
    (sim : Desktop.PathIntegralSimulation K C σ) (k : Nat) :
    ((Desktop.update N gaussian)^[k + 1] sim).currentFrame
      = wrapInt (sim.currentFrame + ((k + 1 : Nat) : Int)) := by
  induction k with
  | zero =>
    rw [Function.iterate_succ_apply', Function.iterate_zero, id_eq, desktop_update_frame]; rfl
  | succ k ih =>
    rw [Function.iterate_succ_apply', desktop_update_frame, ih, wrapInt_succ]
    push_cast
    rw [add_assoc]

/-- The frame counter of the web variant before the `k`-th call of `update`
counted from construction, for `k` in the range of `int`. -/
theorem web_frame_before (N : Numerics K C) (gaussian : σ → K × σ) (seed : σ) (k : Nat)
    (hk1 : 1 ≤ k) (hk2 : k ≤ 2147483647) :
    ((Web.update N gaussian)^[k - 1] (Web.start N gaussian seed)).sim.currentFrame
      = ((k - 1 : Nat) : Int) := by
  obtain ⟨j, rfl⟩ : ∃ j, k = j + 1 := ⟨k - 1, by omega⟩
  rw [Nat.add_sub_cancel]
  cases j with
  | zero => rfl
  | succ j =>
    rw [web_update_iterate_frame]
    have h0 : (Web.start N gaussian seed).sim.currentFrame = 0 := rfl
    rw [h0, zero_add, wrapInt_of_range _ (by omega) (by omega)]

theorem desktop_frame_before (N : Numerics K C) (gaussian : σ → K × σ) (seed : σ) (k : Nat)
    (hk1 : 1 ≤ k) (hk2 : k ≤ 2147483647) :
    ((Desktop.update N gaussian)^[k - 1] (Desktop.construct N gaussian seed)).currentFrame
      = ((k - 1 : Nat) : Int) := by
  obtain ⟨j, rfl⟩ : ∃ j, k = j + 1 := ⟨k - 1, by omega⟩
  rw [Nat.add_sub_cancel]
  cases j with
  | zero => rfl
  | succ j =>
    rw [desktop_update_iterate_frame]
    have h0 : (Desktop.construct N gaussian seed).currentFrame = 0 := rfl
    rw [h0, zero_add, wrapInt_of_range _ (by omega) (by omega)]

/-- One call of `update` of the web variant on a state whose frame counter is `k - 1`. -/
theorem web_update_step (N : Numerics K C) (gaussian : σ → K × σ) (s : Web.State K C σ)
    (k : Nat) (hk1 : 1 ≤ k) (hk2 : k ≤ 2147483647)
    (hf : s.sim.currentFrame = ((k - 1 : Nat) : Int)) :
    (Web.update N gaussian s).sim.currentFrame = (k : Int) ∧
    (180 ∣ k →
      (Web.update N gaussian s).sim.paths = (Web.generatePaths N gaussian s.G s.sim).paths ∧
      (Web.update N gaussian s).sim.rng = (Web.generatePaths N gaussian s.G s.sim).rng) ∧
    (¬ 180 ∣ k →
      (Web.update N gaussian s).sim.paths = s.sim.paths ∧
      (Web.update N gaussian s).sim.rng = s.sim.rng) := by
  have hw : wrapInt (s.sim.currentFrame + 1) = (k : Int) := by
    rw [hf, wrapInt_of_range _ (by omega) (by omega)]
    omega
  refine ⟨by rw [web_update_frame, hw], fun hd => ?_, fun hd => ?_⟩
  · have ht : (k : Int).tmod ((180 : Nat) : Int) = 0 := (tmod_eq_zero_iff_dvd k 180).mpr hd
    simp only [Web.update, hw]
    rw [if_pos (by simpa using ht)]
    exact ⟨rfl, rfl⟩
  · have ht : ¬ (k : Int).tmod ((180 : Nat) : Int) = 0 :=
      fun h => hd ((tmod_eq_zero_iff_dvd k 180).mp h)
    simp only [Web.update, hw]
    rw [if_neg (by simpa using ht)]
    exact ⟨rfl, rfl⟩

/-- One call of `update` of the desktop variant on an object whose frame counter is `k - 1`. -/
theorem desktop_update_step (N : Numerics K C) (gaussian : σ → K × σ)
    (sim : Desktop.PathIntegralSimulation K C σ)
    (k : Nat) (hk1 : 1 ≤ k) (hk2 : k ≤ 2147483647)
    (hf : sim.currentFrame = ((k - 1 : Nat) : Int)) :
    (Desktop.update N gaussian sim).currentFrame = (k : Int) ∧
    (120 ∣ k →
      (Desktop.update N gaussian sim).paths = (Desktop.generatePaths N gaussian sim).paths ∧
      (Desktop.update N gaussian sim).rng = (Desktop.generatePaths N gaussian sim).rng) ∧
    (¬ 120 ∣ k →
      (Desktop.update N gaussian sim).paths = sim.paths ∧
      (Desktop.update N gaussian sim).rng = sim.rng) := by
  have hw : wrapInt (sim.currentFrame + 1) = (k : Int) := by
    rw [hf, wrapInt_of_range _ (by omega) (by omega)]
    omega
  refine ⟨by rw [desktop_update_frame, hw], fun hd => ?_, fun hd => ?_⟩
  · have ht : (k : Int).tmod ((120 : Nat) : Int) = 0 := (tmod_eq_zero_iff_dvd k 120).mpr hd
    simp only [Desktop.update, hw]
    rw [if_pos (by simpa using ht)]
    exact ⟨rfl, rfl⟩
  · have ht : ¬ (k : Int).tmod ((120 : Nat) : Int) = 0 :=
      fun h => hd ((tmod_eq_zero_iff_dvd k 120).mp h)
    simp only [Desktop.update, hw]
    rw [if_neg (by simpa using ht)]
    exact ⟨rfl, rfl⟩

/-- Claim C10, amended: starting from a freshly constructed simulation, for
every `k` with `1 ≤ k ≤ 2147483647` the `k`-th call of `update` brings the frame
counter to `k`; when `k` is a multiple of the interval (180 in `main_web.cpp`,
120 in `main.cpp`) the ensemble and the generator state become those that
`generatePaths` yields from the state before the call, and otherwise both are
left unchanged. -/
theorem update_periodic (N : Numerics K C) (gaussian : σ → K × σ) (seed : σ) (k : Nat)
    (hk1 : 1 ≤ k) (hk2 : k ≤ 2147483647) :
    ((Web.update N gaussian)^[k] (Web.start N gaussian seed)).sim.currentFrame = (k : Int) ∧
    (180 ∣ k →
      ((Web.update N gaussian)^[k] (Web.start N gaussian seed)).sim.paths
        = (Web.generatePaths N gaussian
            ((Web.update N gaussian)^[k - 1] (Web.start N gaussian seed)).G
            ((Web.update N gaussian)^[k - 1] (Web.start N gaussian seed)).sim).paths ∧
      ((Web.update N gaussian)^[k] (Web.start N gaussian seed)).sim.rng
        = (Web.generatePaths N gaussian
            ((Web.update N gaussian)^[k - 1] (Web.start N gaussian seed)).G
            ((Web.update N gaussian)^[k - 1] (Web.start N gaussian seed)).sim).rng) ∧
    (¬ 180 ∣ k →
      ((Web.update N gaussian)^[k] (Web.start N gaussian seed)).sim.paths
        = ((Web.update N gaussian)^[k - 1] (Web.start N gaussian seed)).sim.paths ∧
      ((Web.update N gaussian)^[k] (Web.start N gaussian seed)).sim.rng
        = ((Web.update N gaussian)^[k - 1] (Web.start N gaussian seed)).sim.rng) ∧
    ((Desktop.update N gaussian)^[k] (Desktop.construct N gaussian seed)).currentFrame
      = (k : Int) ∧
    (120 ∣ k →
      ((Desktop.update N gaussian)^[k] (Desktop.construct N gaussian seed)).paths
        = (Desktop.generatePaths N gaussian
            ((Desktop.update N gaussian)^[k - 1] (Desktop.construct N gaussian seed))).paths ∧
      ((Desktop.update N gaussian)^[k] (Desktop.construct N gaussian seed)).rng
        = (Desktop.generatePaths N gaussian
            ((Desktop.update N gaussian)^[k - 1] (Desktop.construct N gaussian seed))).rng) ∧
    (¬ 120 ∣ k →
      ((Desktop.update N gaussian)^[k] (Desktop.construct N gaussian seed)).paths
        = ((Desktop.update N gaussian)^[k - 1] (Desktop.construct N gaussian seed)).paths ∧
      ((Desktop.update N gaussian)^[k] (Desktop.construct N gaussian seed)).rng
        = ((Desktop.update N gaussian)^[k - 1] (Desktop.construct N gaussian seed)).rng) := by
  have hk : k = (k - 1) + 1 := by omega
  have hw := web_update_step N gaussian
    ((Web.update N gaussian)^[k - 1] (Web.start N gaussian seed)) k hk1 hk2
    (web_frame_before N gaussian seed k hk1 hk2)
  have hd := desktop_update_step N gaussian
    ((Desktop.update N gaussian)^[k - 1] (Desktop.construct N gaussian seed)) k hk1 hk2
    (desktop_frame_before N gaussian seed k hk1 hk2)
  have hiw : (Web.update N gaussian)^[k] (Web.start N gaussian seed)
      = Web.update N gaussian ((Web.update N gaussian)^[k - 1] (Web.start N gaussian seed)) := by
    rw [← Function.iterate_succ_apply' (Web.update N gaussian) (k - 1), Nat.succ_eq_add_one,
      ← hk]
  have hid : (Desktop.update N gaussian)^[k] (Desktop.construct N gaussian seed)
      = Desktop.update N gaussian
          ((Desktop.update N gaussian)^[k - 1] (Desktop.construct N gaussian seed)) := by
    rw [← Function.iterate_succ_apply' (Desktop.update N gaussian) (k - 1),
      Nat.succ_eq_add_one, ← hk]
  rw [hiw, hid]
  exact ⟨hw.1, hw.2.1, hw.2.2, hd.1, hd.2.1, hd.2.2⟩

end Periodic

/-- Counterexample to C10 as stated: the 2147483648-th call of `update` on the
freshly constructed web simulation leaves the `int` frame counter at
`-2147483648`, not at 2147483648. -/
theorem update_periodic_counterexample :
    ((Web.update ⟨Complex.mk, Complex.exp, fun z => Complex.abs z⟩ zeroGaussian)^[2147483648]
        (Web.start ⟨Complex.mk, Complex.exp, fun z => Complex.abs z⟩ zeroGaussian
          ())).sim.currentFrame = -2147483648 ∧
    ((Web.update ⟨Complex.mk, Complex.exp, fun z => Complex.abs z⟩ zeroGaussian)^[2147483648]
        (Web.start ⟨Complex.mk, Complex.exp, fun z => Complex.abs z⟩ zeroGaussian
          ())).sim.currentFrame ≠ ((2147483648 : Nat) : Int) := by
  have h := web_update_iterate_frame ⟨Complex.mk, Complex.exp, fun z => Complex.abs z⟩
    zeroGaussian
    (Web.start ⟨Complex.mk, Complex.exp, fun z => Complex.abs z⟩ zeroGaussian ()) 2147483647
  have h0 : (Web.start (⟨Complex.mk, Complex.exp, fun z => Complex.abs z⟩ : Numerics ℝ ℂ)
      zeroGaussian ()).sim.currentFrame = 0 := rfl
  rw [show (2147483647 + 1 : Nat) = 2147483648 from rfl, h0] at h
  have hv : wrapInt (0 + ((2147483648 : Nat) : Int)) = -2147483648 := by
    norm_num [wrapInt]
  rw [hv] at h
  refine ⟨h, ?_⟩
  rw [h]
  norm_num

/-- Witness of the amended C10 at the 180-th call on the web variant over `ℝ`:
the counter reads 180 and the ensemble is regenerated. -/
theorem update_periodic_witness :
    (1 ≤ 180 ∧ 180 ≤ 2147483647) ∧
    ((Web.update ⟨Complex.mk, Complex.exp, fun z => Complex.abs z⟩ zeroGaussian)^[180] (Web.start ⟨Complex.mk, Complex.exp, fun z => Complex.abs z⟩ zeroGaussian ())).sim.currentFrame
      = ((180 : Nat) : Int) ∧
    ((Web.update ⟨Complex.mk, Complex.exp, fun z => Complex.abs z⟩ zeroGaussian)^[180] (Web.start ⟨Complex.mk, Complex.exp, fun z => Complex.abs z⟩ zeroGaussian ())).sim.paths
      = (Web.generatePaths ⟨Complex.mk, Complex.exp, fun z => Complex.abs z⟩ zeroGaussian
          ((Web.update ⟨Complex.mk, Complex.exp, fun z => Complex.abs z⟩ zeroGaussian)^[180 - 1] (Web.start ⟨Complex.mk, Complex.exp, fun z => Complex.abs z⟩ zeroGaussian ())).G
          ((Web.update ⟨Complex.mk, Complex.exp, fun z => Complex.abs z⟩ zeroGaussian)^[180 - 1] (Web.start ⟨Complex.mk, Complex.exp, fun z => Complex.abs z⟩ zeroGaussian ())).sim).paths :=
  have h := update_periodic ⟨Complex.mk, Complex.exp, fun z => Complex.abs z⟩ zeroGaussian () 180 (by decide) (by decide)
  ⟨⟨by decide, by decide⟩, h.1, (h.2.1 (by decide)).1⟩

/-! ## The minimal path -/

section Minimal

variable {K σ : Type} [LinearOrderedField K]

/-- With one time step the sampler writes the two endpoints and draws nothing. -/
theorem generateRandomPath_one_step (gaussian : σ → K × σ) (G : Globals K) (x0 xf : K) (g : σ)
    (hT : G.TIME_STEPS = 1) : generateRandomPath.result gaussian G x0 xf g = ([x0, xf], g) := by
  rw [generateRandomPath_result gaussian G x0 xf g (by omega) (by omega)]
  simp [hT, List.replicate, List.set]

/-- Claim C15: with `x0 = -2`, `xf = 2`, `TIME_STEPS = 1`, `MASS = 1` and
`DT = 0.1` the trajectory is exactly `[-2, 2]`, no variate is drawn, and
`calculateAction` returns `79.8`, the kinetic part being `80` and the potential
part `V(2) * DT = 0.2`. -/
theorem minimal_path_action (gaussian : σ → K × σ) (G : Globals K) (g : σ)
    (hT : G.TIME_STEPS = 1) (hM : G.MASS = 1) (hD : G.DT = 0.1) :
    generateRandomPath gaussian G (-2) 2 g = some ([-2, 2], g) ∧
    calculateAction G [-2, 2] = 79.8 ∧
    0.5 * G.MASS * (2 - (-2)) * (2 - (-2)) / (G.DT * G.DT) * G.DT = 80 ∧
    V (2 : K) * G.DT = 0.2 := by
  refine ⟨?_, ?_, ?_, ?_⟩
  · rw [generateRandomPath_eq_some gaussian G (-2) 2 g (by omega) (by omega),
      generateRandomPath_one_step gaussian G (-2) 2 g hT]
  · simp only [calculateAction, calculateAction.step, V, hM, hD, List.length_cons,
      List.length_nil, List.range', List.foldl_cons, List.foldl_nil, List.getD_cons_zero,
      List.getD_cons_succ]
    norm_num
  · rw [hM, hD]
    norm_num
  · rw [V, hD]
    norm_num

/-- Witness of C15 over `ℚ` with the counting generator. -/
theorem minimal_path_action_witness :
    ((singletonGlobals : Globals ℚ).TIME_STEPS = 1 ∧ (singletonGlobals : Globals ℚ).MASS = 1 ∧
      (singletonGlobals : Globals ℚ).DT = 0.1) ∧
    generateRandomPath countingGaussian (singletonGlobals : Globals ℚ) (-2) 2 5
      = some ([-2, 2], 5) ∧
    calculateAction (singletonGlobals : Globals ℚ) [-2, 2] = 79.8 ∧
    0.5 * (singletonGlobals : Globals ℚ).MASS * (2 - (-2)) * (2 - (-2))
      / ((singletonGlobals : Globals ℚ).DT * (singletonGlobals : Globals ℚ).DT)
      * (singletonGlobals : Globals ℚ).DT = 80 ∧
    V (2 : ℚ) * (singletonGlobals : Globals ℚ).DT = 0.2 :=
  ⟨⟨rfl, rfl, rfl⟩, minimal_path_action countingGaussian singletonGlobals 5 rfl rfl rfl⟩

end Minimal

/-! ## The straight-line path -/

section StraightLine

variable {K σ : Type} [LinearOrderedField K]

/-- Every entry of the vector that `generateRandomPath` returns when
`1 ≤ TIME_STEPS ≤ 2147483646`, by index. -/
theorem generateRandomPath_entries (gaussian : σ → K × σ) (G : Globals K) (x0 xf : K) (g : σ)
    (hT : 1 ≤ G.TIME_STEPS) (hT2 : G.TIME_STEPS ≤ 2147483646) (t : Nat)
    (ht : (t : Int) ≤ G.TIME_STEPS) :
    (generateRandomPath.result gaussian G x0 xf g).1[t]? =
      some (if t = 0 then x0 else if (t : Int) = G.TIME_STEPS then xf else
        (1 - (t : K) / (G.TIME_STEPS : K)) * x0 + (t : K) / (G.TIME_STEPS : K) * xf
          + 0.5 * variate gaussian g t) := by
  obtain ⟨hlen, hhead, hlast, hint, -⟩ := generateRandomPath_spec gaussian G x0 xf g hT hT2
  by_cases h0 : t = 0
  · subst h0
    rw [if_pos rfl, ← List.head?_eq_getElem?, hhead]
  · rw [if_neg h0]
    by_cases hN : (t : Int) = G.TIME_STEPS
    · rw [if_pos hN, ← hlast, List.getLast?_eq_getElem?]
      congr 1
      omega
    · rw [if_neg hN]
      exact hint t (by omega) (by omega)

theorem variate_zero (gaussian : σ → K × σ) (g : σ) (hz : ∀ s, (gaussian s).1 = 0) (t : Nat) :
    variate gaussian g t = 0 := hz _

end StraightLine

/-! ## The ensemble as a function of the generator -/

theorem rngAfter_add {K σ : Type} (gaussian : σ → K × σ) (g : σ) (a b : Nat) :
    rngAfter gaussian (rngAfter gaussian g a) b = rngAfter gaussian g (a + b) := by
  simp only [rngAfter]
  rw [add_comm, Function.iterate_add_apply]

section Closed

variable {K C σ : Type} [LinearOrderedField K]

/-- A call of `generateRandomPath` that returns draws `TIME_STEPS - 1` variates. -/
theorem generateRandomPath_rng (gaussian : σ → K × σ) (G : Globals K) (x0 xf : K) (g : σ)
    (h0 : 0 ≤ G.TIME_STEPS) (h1 : G.TIME_STEPS ≤ 2147483646) :
    (generateRandomPath.result gaussian G x0 xf g).2
      = rngAfter gaussian g (G.TIME_STEPS - 1).toNat := by
  rw [generateRandomPath_result gaussian G x0 xf g h0 h1]
  exact (generateRandomPath_loop gaussian G x0 xf _ g _).1

theorem sample_loop_eq_map (N : Numerics K C) (gaussian : σ → K × σ) (G : Globals K)
    (x0 xf : K) (g : σ) (n : Nat) (h0 : 0 ≤ G.TIME_STEPS) (h1 : G.TIME_STEPS ≤ 2147483646) :
    (List.range n).foldl (fun (s : List (Path K C) × σ) (_ : Nat) =>
        (s.1 ++ [scorePath N G (generateRandomPath.result gaussian G x0 xf s.2).1],
          (generateRandomPath.result gaussian G x0 xf s.2).2)) ([], g)
      = ((List.range n).map (fun j => scorePath N G
            (generateRandomPath.result gaussian G x0 xf
              (rngAfter gaussian g (j * (G.TIME_STEPS - 1).toNat))).1),
          rngAfter gaussian g (n * (G.TIME_STEPS - 1).toNat)) := by
  induction n with
  | zero => simp [rngAfter]
  | succ n ih =>
    rw [List.range_succ, List.foldl_append, ih, List.map_append]
    simp only [List.foldl_cons, List.foldl_nil, List.map_cons, List.map_nil,
      generateRandomPath_rng gaussian G x0 xf _ h0 h1, rngAfter_add]
    refine Prod.ext rfl ?_
    simp only
    congr 1
    ring

/-- The sampling loop of `generatePaths` in closed form, when `TIME_STEPS + 1` is
an `int`: trajectory `j` is sampled from the generator state after
`j * (TIME_STEPS - 1)` draws. -/
theorem sample_eq_map (N : Numerics K C) (gaussian : σ → K × σ) (G : Globals K) (g : σ)
    (h0 : 0 ≤ G.TIME_STEPS) (h1 : G.TIME_STEPS ≤ 2147483646) :
    (generatePaths.sample N gaussian G g).1
      = (List.range G.NUM_PATHS.toNat).map (fun j => scorePath N G
          (generateRandomPath.result gaussian G (-2.0) 2.0
            (rngAfter gaussian g (j * (G.TIME_STEPS - 1).toNat))).1) := by
  rw [generatePaths.sample, generatePaths.run, sample_loop_of_range N gaussian G _ _ h0 h1,
    sample_loop_eq_map N gaussian G _ _ g _ h0 h1]

end Closed

theorem normalize_mem {K C : Type} [Field C] (sum : C) (paths : List (Path K C))
    (p : Path K C) (hp : p ∈ generatePaths.normalize sum paths) :
    ∃ q ∈ paths, p.positions = q.positions ∧ p.action = q.action ∧
      p.amplitude = q.amplitude / sum := by
  simp only [generatePaths.normalize, List.mem_map] at hp
  obtain ⟨q, hq, rfl⟩ := hp
  exact ⟨q, hq, rfl, rfl, rfl⟩

section Normalised

variable {σ : Type}

/-- After the division by `sum`, every amplitude is the raw amplitude of its
trajectory divided by `sum`. -/
theorem normalize_sample_amplitude (gaussian : σ → ℝ × σ) (G : Globals ℝ) (g : σ) (sum : ℂ)
    (p : Path ℝ ℂ)
    (hp : p ∈ generatePaths.normalize sum
      (generatePaths.sample ⟨Complex.mk, Complex.exp, fun z => Complex.abs z⟩ gaussian G g).1) :
    p.amplitude = Complex.exp ⟨0, -p.action / G.HBAR⟩ / sum := by
  obtain ⟨q, hq, -, hact, hamp⟩ := normalize_mem sum _ p hp
  rw [hamp, (sample_amplitude _ gaussian G g q hq).1, hact]
  rfl

theorem abs_div_unit (θ : ℝ) (sum : ℂ) :
    Complex.abs (Complex.exp ⟨0, θ⟩ / sum) = 1 / Complex.abs sum := by
  rw [map_div₀, abs_exp_mk_zero]

end Normalised

section Magnitudes

variable {σ τ : Type}

/-- Claim C16: after a normalising regeneration (raw sum of magnitude above
`1e-10`) every stored amplitude has magnitude `1 / |sum|`, whatever the action of
its trajectory, so no two trajectories of the ensemble differ in amplitude
magnitude; in `main_web.cpp` and in `main.cpp`. -/
theorem normalized_equal_magnitude (gaussian : σ → ℝ × σ) (G : Globals ℝ)
    (sim : PathIntegralSimulation ℝ ℂ σ) (dgaussian : τ → ℝ × τ)
    (dsim : Desktop.PathIntegralSimulation ℝ ℂ τ)
    (hw : 1e-10 < Complex.abs (generatePaths.sum
      (generatePaths.sample ⟨Complex.mk, Complex.exp, fun z => Complex.abs z⟩ gaussian G
        sim.rng).1))
    (_hd : 1e-10 < Complex.abs (generatePaths.sum
      (generatePaths.sample ⟨Complex.mk, Complex.exp, fun z => Complex.abs z⟩ dgaussian
        (Desktop.globals : Globals ℝ) dsim.rng).1)) :
    (∀ p ∈ (Web.generatePaths ⟨Complex.mk, Complex.exp, fun z => Complex.abs z⟩ gaussian G
        sim).paths,
      Complex.abs p.amplitude = 1 / Complex.abs (generatePaths.sum
        (generatePaths.sample ⟨Complex.mk, Complex.exp, fun z => Complex.abs z⟩ gaussian G
          sim.rng).1)) ∧
    (∀ p ∈ (Web.generatePaths ⟨Complex.mk, Complex.exp, fun z => Complex.abs z⟩ gaussian G
        sim).paths,
      ∀ q ∈ (Web.generatePaths ⟨Complex.mk, Complex.exp, fun z => Complex.abs z⟩ gaussian G
        sim).paths, Complex.abs p.amplitude = Complex.abs q.amplitude) ∧
    (∀ p ∈ (Desktop.generatePaths ⟨Complex.mk, Complex.exp, fun z => Complex.abs z⟩ dgaussian
        dsim).paths,
      Complex.abs p.amplitude = 1 / Complex.abs (generatePaths.sum
        (generatePaths.sample ⟨Complex.mk, Complex.exp, fun z => Complex.abs z⟩ dgaussian
          (Desktop.globals : Globals ℝ) dsim.rng).1)) ∧
    (∀ p ∈ (Desktop.generatePaths ⟨Complex.mk, Complex.exp, fun z => Complex.abs z⟩ dgaussian
        dsim).paths,
      ∀ q ∈ (Desktop.generatePaths ⟨Complex.mk, Complex.exp, fun z => Complex.abs z⟩ dgaussian
        dsim).paths, Complex.abs p.amplitude = Complex.abs q.amplitude) := by
  have hweb : ∀ p ∈ (Web.generatePaths ⟨Complex.mk, Complex.exp, fun z => Complex.abs z⟩
      gaussian G sim).paths,
      Complex.abs p.amplitude = 1 / Complex.abs (generatePaths.sum
        (generatePaths.sample ⟨Complex.mk, Complex.exp, fun z => Complex.abs z⟩ gaussian G
          sim.rng).1) := by
    intro p hp
    rw [web_generatePaths_paths, if_pos hw] at hp
    rw [normalize_sample_amplitude gaussian G sim.rng _ p hp, abs_div_unit]
  have hdesk : ∀ p ∈ (Desktop.generatePaths ⟨Complex.mk, Complex.exp, fun z => Complex.abs z⟩
      dgaussian dsim).paths,
      Complex.abs p.amplitude = 1 / Complex.abs (generatePaths.sum
        (generatePaths.sample ⟨Complex.mk, Complex.exp, fun z => Complex.abs z⟩ dgaussian
          (Desktop.globals : Globals ℝ) dsim.rng).1) := by
    intro p hp
    rw [desktop_generatePaths_paths] at hp
    rw [normalize_sample_amplitude dgaussian Desktop.globals dsim.rng _ p hp, abs_div_unit]
  exact ⟨hweb, fun p hp q hq => by rw [hweb p hp, hweb q hq], hdesk,
    fun p hp q hq => by rw [hdesk p hp, hdesk q hq]⟩

end Magnitudes

/-- With the generator that always yields `0`, the raw sum of the desktop
variant is 1000 times one unit phase. -/
theorem desktop_zero_noise_sum :
    Complex.abs (generatePaths.sum
      (generatePaths.sample ⟨Complex.mk, Complex.exp, fun z => Complex.abs z⟩ zeroGaussian
        (Desktop.globals : Globals ℝ) ()).1) = 1000 := by
  rw [sample_eq_map _ _ _ _ (by simp [Desktop.globals]) (by simp [Desktop.globals]),
    generatePaths_sum_eq, List.map_map]
  have hc : ((fun p : Path ℝ ℂ => p.amplitude) ∘ fun j : Nat =>
      scorePath ⟨Complex.mk, Complex.exp, fun z => Complex.abs z⟩ (Desktop.globals : Globals ℝ)
        (generateRandomPath.result zeroGaussian (Desktop.globals : Globals ℝ) (-2.0) 2.0
          (rngAfter (zeroGaussian : Unit → ℝ × Unit) ()
            (j * ((Desktop.globals : Globals ℝ).TIME_STEPS - 1).toNat))).1)
      = fun _ => (scorePath ⟨Complex.mk, Complex.exp, fun z => Complex.abs z⟩
          (Desktop.globals : Globals ℝ)
          (generateRandomPath.result zeroGaussian (Desktop.globals : Globals ℝ) (-2.0) 2.0 ()).1).amplitude := by
    funext j
    rfl
  rw [hc, List.map_const', List.sum_replicate, List.length_range, nsmul_eq_mul, map_mul]
  simp only [scorePath, rawAmplitude, abs_exp_mk_zero, mul_one]
  have : (Desktop.globals : Globals ℝ).NUM_PATHS.toNat = 1000 := rfl
  rw [this]
  simp

/-! ## Phases under normalisation -/

section Phases

variable {σ : Type}

/-- Claim C12, amended: when the raw sum has magnitude above `1e-10`, every
stored amplitude is the raw amplitude `exp (-i * action / HBAR)` of its
trajectory divided by the sum, so its argument is the raw argument minus the
argument of the sum, as angles modulo `2π`; all phases are shifted by the one
angle `-arg sum`. -/
theorem normalized_phase (gaussian : σ → ℝ × σ) (G : Globals ℝ)
    (sim : PathIntegralSimulation ℝ ℂ σ)
    (h : 1e-10 < Complex.abs (generatePaths.sum
      (generatePaths.sample ⟨Complex.mk, Complex.exp, fun z => Complex.abs z⟩ gaussian G
        sim.rng).1)) :
    ∀ p ∈ (Web.generatePaths ⟨Complex.mk, Complex.exp, fun z => Complex.abs z⟩ gaussian G
        sim).paths,
      p.amplitude = Complex.exp ⟨0, -p.action / G.HBAR⟩ / generatePaths.sum
        (generatePaths.sample ⟨Complex.mk, Complex.exp, fun z => Complex.abs z⟩ gaussian G
          sim.rng).1 ∧
      ((Complex.arg p.amplitude : ℝ) : Real.Angle)
        = ((Complex.arg (Complex.exp ⟨0, -p.action / G.HBAR⟩) : ℝ) : Real.Angle)
          - ((Complex.arg (generatePaths.sum
              (generatePaths.sample ⟨Complex.mk, Complex.exp, fun z => Complex.abs z⟩ gaussian G
                sim.rng).1) : ℝ) : Real.Angle) := by
  intro p hp
  have hne : generatePaths.sum
      (generatePaths.sample ⟨Complex.mk, Complex.exp, fun z => Complex.abs z⟩ gaussian G
        sim.rng).1 ≠ 0 := by
    intro h0
    rw [h0, map_zero] at h
    norm_num at h
  rw [web_generatePaths_paths, if_pos h] at hp
  have hamp := normalize_sample_amplitude gaussian G sim.rng _ p hp
  refine ⟨hamp, ?_⟩
  rw [hamp, Complex.arg_div_coe_angle (Complex.exp_ne_zero _) hne]

end Phases

theorem sin_fixture_ne_zero : Real.sin (399 / 5) ≠ 0 := by
  intro h
  obtain ⟨n, hn⟩ := Real.sin_eq_zero_iff.mp h
  have h1 := Real.pi_gt_d2
  have h2 := Real.pi_lt_d2
  have hn25 : (25 : ℝ) < (n : ℝ) := by
    by_contra hle
    push_neg at hle
    nlinarith
  have hn26 : (n : ℝ) < 26 := by
    by_contra hle
    push_neg at hle
    nlinarith
  have a : (25 : ℤ) < n := by exact_mod_cast hn25
  have b : n < (26 : ℤ) := by exact_mod_cast hn26
  omega

theorem arg_fixture_ne_zero : Complex.arg (Complex.exp ⟨0, -(399 / 5) / 1⟩) ≠ 0 := by
  intro h
  have him := (Complex.arg_eq_zero_iff.mp h).2
  rw [Complex.exp_im] at him
  simp only [Real.exp_zero, one_mul, div_one, Real.sin_neg, neg_eq_zero] at him
  exact sin_fixture_ne_zero him

/-- The web ensemble for one path of one time step under `HBAR = 1`, `MASS = 1`,
`DT = 0.1`: the stored amplitude is the raw one divided by itself. -/
theorem web_singleton_paths :
    (Web.generatePaths ⟨Complex.mk, Complex.exp, fun z => Complex.abs z⟩ zeroGaussian
        (singletonGlobals : Globals ℝ) (Web.memberInit ())).paths
      = [{ positions := [-2, 2], amplitude := 1, action := 399 / 5 }] := by
  have hs : (generatePaths.sample ⟨Complex.mk, Complex.exp, fun z => Complex.abs z⟩ zeroGaussian
      (singletonGlobals : Globals ℝ)
      (Web.memberInit () : PathIntegralSimulation ℝ ℂ Unit).rng).1 = _ := sample_singleton
  have hsum : generatePaths.sum
      (generatePaths.sample ⟨Complex.mk, Complex.exp, fun z => Complex.abs z⟩ zeroGaussian
        (singletonGlobals : Globals ℝ)
        (Web.memberInit () : PathIntegralSimulation ℝ ℂ Unit).rng).1
      = Complex.exp ⟨0, -(399 / 5) / 1⟩ := by
    rw [hs, generatePaths_sum_eq]
    simp
  rw [web_generatePaths_paths, hsum,
    if_pos (show Complex.abs (Complex.exp ⟨0, -(399 / 5) / 1⟩) > 1e-10 by
      rw [abs_exp_mk_zero]; norm_num), hs]
  simp only [generatePaths.normalize, List.map_cons, List.map_nil,
    div_self (Complex.exp_ne_zero _)]

/-- Counterexample to C12 as stated: one path of one time step with `HBAR = 1`,
`MASS = 1`, `DT = 0.1`.  The raw sum has magnitude 1, the stored amplitude is `1`
with argument `0`, and the raw amplitude `exp (-79.8 i)` has a non-zero
argument. -/
theorem normalized_phase_counterexample :
    1e-10 < Complex.abs (generatePaths.sum
      (generatePaths.sample ⟨Complex.mk, Complex.exp, fun z => Complex.abs z⟩ zeroGaussian
        (singletonGlobals : Globals ℝ)
        (Web.memberInit () : PathIntegralSimulation ℝ ℂ Unit).rng).1) ∧
    ∃ p ∈ (Web.generatePaths ⟨Complex.mk, Complex.exp, fun z => Complex.abs z⟩ zeroGaussian
        (singletonGlobals : Globals ℝ) (Web.memberInit ())).paths,
      Complex.arg p.amplitude
        ≠ Complex.arg (Complex.exp ⟨0, -p.action / (singletonGlobals : Globals ℝ).HBAR⟩) := by
  constructor
  · rw [show (Web.memberInit () : PathIntegralSimulation ℝ ℂ Unit).rng = () from rfl,
      sample_singleton, generatePaths_sum_eq]
    simp only [List.map_cons, List.map_nil, List.sum_cons, List.sum_nil, add_zero,
      abs_exp_mk_zero]
    norm_num
  · rw [web_singleton_paths]
    refine ⟨_, List.mem_singleton.mpr rfl, ?_⟩
    simp only [Complex.arg_one, singletonGlobals]
    exact fun h => arg_fixture_ne_zero h.symm

/-! ## Witnesses on small ensembles -/

/-- The raw sum of the two-path ensemble with `HBAR = 1 / π`: the phases are
`-2π` and `-5π/2`, so the real part of the sum is `1`. -/
theorem twoPath_sum_large :
    1e-10 < Complex.abs (generatePaths.sum
      (generatePaths.sample ⟨Complex.mk, Complex.exp, fun z => Complex.abs z⟩ zeroThenTwo
        (twoPathGlobals (1 / Real.pi))
        (Web.memberInit 0 : PathIntegralSimulation ℝ ℂ Nat).rng).1) := by
  rw [show (Web.memberInit 0 : PathIntegralSimulation ℝ ℂ Nat).rng = 0 from rfl,
    sample_twoPath, generatePaths_sum_eq]
  simp only [List.map_cons, List.map_nil, List.sum_cons, List.sum_nil, add_zero]
  have hre : (Complex.exp ⟨0, -2 / (1 / Real.pi)⟩
      + Complex.exp ⟨0, -(5 / 2) / (1 / Real.pi)⟩).re = 1 := by
    rw [Complex.add_re, Complex.exp_re, Complex.exp_re]
    simp only [Real.exp_zero, one_mul]
    have e1 : (-2 / (1 / Real.pi) : ℝ) = -(2 * Real.pi) := by
      field_simp
    have e2 : (-(5 / 2) / (1 / Real.pi) : ℝ) = -(Real.pi / 2 + 2 * Real.pi) := by
      field_simp
      ring
    rw [e1, e2, Real.cos_neg, Real.cos_neg, Real.cos_two_pi, Real.cos_add_two_pi,
      Real.cos_pi_div_two, add_zero]
  have hle := Complex.re_le_abs (Complex.exp ⟨0, -2 / (1 / Real.pi)⟩
      + Complex.exp ⟨0, -(5 / 2) / (1 / Real.pi)⟩)
  rw [hre] at hle
  linarith

/-- Witness of the amended C12: two paths with raw phases `-2π` and `-5π/2`. -/
theorem normalized_phase_witness :
    1e-10 < Complex.abs (generatePaths.sum
      (generatePaths.sample ⟨Complex.mk, Complex.exp, fun z => Complex.abs z⟩ zeroThenTwo
        (twoPathGlobals (1 / Real.pi))
        (Web.memberInit 0 : PathIntegralSimulation ℝ ℂ Nat).rng).1) ∧
    ∀ p ∈ (Web.generatePaths ⟨Complex.mk, Complex.exp, fun z => Complex.abs z⟩ zeroThenTwo
        (twoPathGlobals (1 / Real.pi)) (Web.memberInit 0)).paths,
      p.amplitude = Complex.exp ⟨0, -p.action / (twoPathGlobals (1 / Real.pi)).HBAR⟩
        / generatePaths.sum
          (generatePaths.sample ⟨Complex.mk, Complex.exp, fun z => Complex.abs z⟩ zeroThenTwo
            (twoPathGlobals (1 / Real.pi))
            (Web.memberInit 0 : PathIntegralSimulation ℝ ℂ Nat).rng).1 ∧
      ((Complex.arg p.amplitude : ℝ) : Real.Angle)
        = ((Complex.arg (Complex.exp
              ⟨0, -p.action / (twoPathGlobals (1 / Real.pi)).HBAR⟩) : ℝ) : Real.Angle)
          - ((Complex.arg (generatePaths.sum
              (generatePaths.sample ⟨Complex.mk, Complex.exp, fun z => Complex.abs z⟩ zeroThenTwo
                (twoPathGlobals (1 / Real.pi))
                (Web.memberInit 0 : PathIntegralSimulation ℝ ℂ Nat).rng).1) : ℝ) : Real.Angle) :=
  ⟨twoPath_sum_large,
    normalized_phase zeroThenTwo (twoPathGlobals (1 / Real.pi)) (Web.memberInit 0)
      twoPath_sum_large⟩

/-- The raw sum of the desktop variant with the generator that always yields `0`
is above the threshold. -/
theorem desktop_zero_noise_sum_large :
    1e-10 < Complex.abs (generatePaths.sum
      (generatePaths.sample ⟨Complex.mk, Complex.exp, fun z => Complex.abs z⟩ zeroGaussian
        (Desktop.globals : Globals ℝ)
        (Desktop.memberInit () : Desktop.PathIntegralSimulation ℝ ℂ Unit).rng).1) := by
  rw [show (Desktop.memberInit () : Desktop.PathIntegralSimulation ℝ ℂ Unit).rng = () from rfl,
    desktop_zero_noise_sum]
  norm_num

/-- Witness of C16: the two-path web ensemble with raw phases `-2π` and `-5π/2`,
and the desktop ensemble of 1000 straight-line paths. -/
theorem normalized_equal_magnitude_witness :
    (1e-10 < Complex.abs (generatePaths.sum
      (generatePaths.sample ⟨Complex.mk, Complex.exp, fun z => Complex.abs z⟩ zeroThenTwo
        (twoPathGlobals (1 / Real.pi))
        (Web.memberInit 0 : PathIntegralSimulation ℝ ℂ Nat).rng).1) ∧
     1e-10 < Complex.abs (generatePaths.sum
      (generatePaths.sample ⟨Complex.mk, Complex.exp, fun z => Complex.abs z⟩ zeroGaussian
        (Desktop.globals : Globals ℝ)
        (Desktop.memberInit () : Desktop.PathIntegralSimulation ℝ ℂ Unit).rng).1)) ∧
    (∀ p ∈ (Web.generatePaths ⟨Complex.mk, Complex.exp, fun z => Complex.abs z⟩ zeroThenTwo
        (twoPathGlobals (1 / Real.pi)) (Web.memberInit 0)).paths,
      ∀ q ∈ (Web.generatePaths ⟨Complex.mk, Complex.exp, fun z => Complex.abs z⟩ zeroThenTwo
        (twoPathGlobals (1 / Real.pi)) (Web.memberInit 0)).paths,
        Complex.abs p.amplitude = Complex.abs q.amplitude) ∧
    (∀ p ∈ (Desktop.generatePaths ⟨Complex.mk, Complex.exp, fun z => Complex.abs z⟩ zeroGaussian
        (Desktop.memberInit ())).paths,
      ∀ q ∈ (Desktop.generatePaths ⟨Complex.mk, Complex.exp, fun z => Complex.abs z⟩
        zeroGaussian (Desktop.memberInit ())).paths,
        Complex.abs p.amplitude = Complex.abs q.amplitude) :=
  have h := normalized_equal_magnitude zeroThenTwo (twoPathGlobals (1 / Real.pi))
    (Web.memberInit 0) zeroGaussian (Desktop.memberInit ()) twoPath_sum_large
    desktop_zero_noise_sum_large
  ⟨⟨twoPath_sum_large, desktop_zero_noise_sum_large⟩, h.2.1, h.2.2.2⟩

/-! ## The unguarded division of the desktop variant -/

section Perturb

variable {K σ : Type} [LinearOrderedField K]

theorem sum_Icc_split_two (f : Nat → K) (n : Nat) (hn : 2 ≤ n) :
    ∑ t ∈ Finset.Icc 1 n, f t = f 1 + f 2 + ∑ t ∈ Finset.Icc 3 n, f t := by
  rw [← Nat.Ico_succ_right, Finset.sum_eq_sum_Ico_succ_bot (by omega),
    Finset.sum_eq_sum_Ico_succ_bot (by omega), Nat.Ico_succ_right,
    show (1 : Nat) + 1 = 2 from rfl, show (2 : Nat) + 1 = 3 from rfl, add_assoc]

/-- Two position sequences of equal length that differ at index 1 only have
actions that differ by the contributions of steps 1 and 2. -/
theorem calculateAction_perturb_first (G : Globals K) (p q : List K)
    (hlen : p.length = q.length) (h3 : 3 ≤ q.length)
    (heq : ∀ t, t ≠ 1 → p.getD t 0 = q.getD t 0) :
    calculateAction G p = calculateAction G q
      + ((0.5 * G.MASS * (p.getD 1 0 - q.getD 0 0) ^ 2 / G.DT ^ 2
            - 0.5 * (p.getD 1 0) ^ 2) * G.DT
        + (0.5 * G.MASS * (q.getD 2 0 - p.getD 1 0) ^ 2 / G.DT ^ 2
            - 0.5 * (q.getD 2 0) ^ 2) * G.DT
        - (0.5 * G.MASS * (q.getD 1 0 - q.getD 0 0) ^ 2 / G.DT ^ 2
            - 0.5 * (q.getD 1 0) ^ 2) * G.DT
        - (0.5 * G.MASS * (q.getD 2 0 - q.getD 1 0) ^ 2 / G.DT ^ 2
            - 0.5 * (q.getD 2 0) ^ 2) * G.DT) := by
  rw [calculateAction_sum, calculateAction_sum, hlen,
    sum_Icc_split_two _ _ (by omega), sum_Icc_split_two _ _ (by omega)]
  have htail : ∑ t ∈ Finset.Icc 3 (q.length - 1),
        (0.5 * G.MASS * (p.getD t 0 - p.getD (t - 1) 0) ^ 2 / G.DT ^ 2
          - 0.5 * (p.getD t 0) ^ 2) * G.DT
      = ∑ t ∈ Finset.Icc 3 (q.length - 1),
        (0.5 * G.MASS * (q.getD t 0 - q.getD (t - 1) 0) ^ 2 / G.DT ^ 2
          - 0.5 * (q.getD t 0) ^ 2) * G.DT := by
    apply Finset.sum_congr rfl
    intro t ht
    rw [Finset.mem_Icc] at ht
    rw [heq t (by omega), heq (t - 1) (by omega)]
  rw [htail]
  simp only [Nat.sub_self, show 2 - 1 = 1 from rfl]
  rw [heq 0 (by omega), heq 2 (by omega)]
  ring

/-- Entry `t` of the sampled vector, with `0` past the end. -/
theorem generateRandomPath_getD (gaussian : σ → K × σ) (G : Globals K) (x0 xf : K) (g : σ)
    (hT : 1 ≤ G.TIME_STEPS) (hT2 : G.TIME_STEPS ≤ 2147483646) (t : Nat) :
    (generateRandomPath.result gaussian G x0 xf g).1.getD t 0 =
      if (t : Int) ≤ G.TIME_STEPS then
        (if t = 0 then x0 else if (t : Int) = G.TIME_STEPS then xf else
          (1 - (t : K) / (G.TIME_STEPS : K)) * x0 + (t : K) / (G.TIME_STEPS : K) * xf
            + 0.5 * variate gaussian g t)
      else 0 := by
  rw [List.getD_eq_getElem?_getD]
  by_cases ht : (t : Int) ≤ G.TIME_STEPS
  · rw [if_pos ht, generateRandomPath_entries gaussian G x0 xf g hT hT2 t ht, Option.getD_some]
  · rw [if_neg ht, List.getElem?_eq_none, Option.getD_none]
    have := (generateRandomPath_spec gaussian G x0 xf g hT hT2).1
    omega

end Perturb

section Pulse

variable {K : Type} [LinearOrderedField K]

theorem rngAfter_pulse (a c : K) (g k : Nat) :
    rngAfter (pulseGaussian a c) g k = g + k := by
  induction k with
  | zero => rfl
  | succ k ih => rw [rngAfter_succ, ih]; rfl

/-- Under the pulse generator, with 49 draws per trajectory, the variates of
trajectory `j` are `pulseFirst a c j` at `t = 1` and `0` at `t = 2 .. 49`. -/
theorem variate_pulse (a c : K) (j t : Nat) (ht1 : 1 ≤ t) (ht2 : t ≤ 49) :
    variate (pulseGaussian a c) (j * 49) t = if t = 1 then pulseFirst a c j else 0 := by
  simp only [variate, rngAfter_pulse, pulseGaussian, pulseFirst]
  by_cases h1 : t = 1
  · subst h1
    simp only [Nat.sub_self, add_zero, if_true]
    by_cases hj : j = 0
    · subst hj
      simp
    · have hne : j * 49 ≠ 0 := by omega
      rw [if_neg hne, if_neg hj]
      by_cases hodd : j % 2 = 1
      · rw [if_pos hodd, if_pos (by omega)]
      · rw [if_neg hodd, if_neg (by omega)]
  · rw [if_neg h1, if_neg (by omega), if_neg (by omega)]

end Pulse

section PulseAction

variable {K : Type} [LinearOrderedField K]

theorem desktop_path_length {σ : Type} (gaussian : σ → K × σ) (g : σ) :
    (generateRandomPath.result gaussian (Desktop.globals : Globals K) (-2.0) 2.0 g).1.length = 51 := by
  have h := (generateRandomPath_spec gaussian (Desktop.globals : Globals K) (-2.0) 2.0 g
    (show (1 : Int) ≤ 50 by omega) (show (50 : Int) ≤ 2147483646 by omega)).1
  have h50 : (Desktop.globals : Globals K).TIME_STEPS = 50 := rfl
  omega

/-- Entry `t` of a desktop trajectory in terms of its variates. -/
theorem desktop_path_getD {σ : Type} (gaussian : σ → K × σ) (g : σ) (t : Nat) :
    (generateRandomPath.result gaussian (Desktop.globals : Globals K) (-2.0) 2.0 g).1.getD t 0 =
      if t ≤ 50 then
        (if t = 0 then -2.0 else if t = 50 then 2.0 else
          (1 - (t : K) / 50) * (-2.0) + (t : K) / 50 * 2.0 + 0.5 * variate gaussian g t)
      else 0 := by
  rw [generateRandomPath_getD gaussian _ _ _ g (show (1 : Int) ≤ 50 by omega)
    (show (50 : Int) ≤ 2147483646 by omega) t]
  have h50 : (Desktop.globals : Globals K).TIME_STEPS = 50 := rfl
  rw [h50]
  by_cases ht : t ≤ 50
  · rw [if_pos ht, if_pos (by omega)]
    by_cases h0 : t = 0
    · rw [if_pos h0, if_pos h0]
    · rw [if_neg h0, if_neg h0]
      by_cases hl : t = 50
      · rw [if_pos hl, if_pos (by omega)]
      · rw [if_neg hl, if_neg (by omega)]
        norm_num
  · rw [if_neg ht, if_neg (by omega)]

/-- The action of trajectory `j` of the desktop variant under the pulse
generator: the action of the straight line plus a quadratic in the first
variate. -/
theorem pulse_path_action (a c : K) (j : Nat) :
    calculateAction (Desktop.globals : Globals K)
        (generateRandomPath.result (pulseGaussian a c) (Desktop.globals : Globals K) (-2.0) 2.0
          (j * 49)).1
      = calculateAction (Desktop.globals : Globals K)
          (generateRandomPath.result zeroGaussian (Desktop.globals : Globals K) (-2.0) 2.0 ()).1
        + (2.4875 * pulseFirst a c j ^ 2 + 0.096 * pulseFirst a c j) := by
  rw [calculateAction_perturb_first (Desktop.globals : Globals K) _
    (generateRandomPath.result zeroGaussian (Desktop.globals : Globals K) (-2.0) 2.0 ()).1]
  · congr 1
    have hz : ∀ t, variate (zeroGaussian : Unit → K × Unit) () t = 0 := fun _ => rfl
    simp only [desktop_path_getD, hz]
    rw [variate_pulse a c j 1 (by omega) (by omega)]
    simp only [Desktop.globals]
    norm_num
    ring
  · rw [desktop_path_length, desktop_path_length]
  · rw [desktop_path_length]
    omega
  · intro t ht
    rw [desktop_path_getD, desktop_path_getD]
    by_cases h50 : t ≤ 50
    · rw [if_pos h50, if_pos h50]
      by_cases h0 : t = 0
      · rw [if_pos h0, if_pos h0]
      · rw [if_neg h0, if_neg h0]
        by_cases hl : t = 50
        · rw [if_pos hl, if_pos hl]
        · rw [if_neg hl, if_neg hl, variate_pulse a c j t (by omega) (by omega), if_neg ht,
            variate_zero zeroGaussian () (fun _ => rfl)]
    · rw [if_neg h50, if_neg h50]

end PulseAction

theorem alternating_sum (f : Nat → ℂ) (X Y : ℂ) (hodd : ∀ j, j % 2 = 1 → f j = Y)
    (heven : ∀ j, j ≠ 0 → j % 2 = 0 → f j = X) (m : Nat) :
    ((List.range (2 * (m + 1))).map f).sum = f 0 + (m : ℂ) * X + ((m : ℂ) + 1) * Y := by
  induction m with
  | zero =>
    rw [show 2 * (0 + 1) = 1 + 1 from rfl, List.range_succ, List.range_succ]
    simp [hodd 1 rfl]
  | succ m ih =>
    rw [show 2 * (m + 1 + 1) = 2 * (m + 1) + 1 + 1 by ring, List.range_succ, List.range_succ,
      List.map_append, List.map_append, List.sum_append, List.sum_append, ih,
      List.map_singleton, List.map_singleton, List.sum_singleton, List.sum_singleton,
      heven (2 * (m + 1)) (by omega) (by omega), hodd (2 * (m + 1) + 1) (by omega)]
    push_cast
    ring

theorem exp_mk_zero_add (x y : ℝ) :
    Complex.exp ⟨0, x + y⟩ = Complex.exp ⟨0, x⟩ * Complex.exp ⟨0, y⟩ := by
  rw [← Complex.exp_add]
  congr 1
  apply Complex.ext <;> simp

theorem exp_mk_zero_neg_pi : Complex.exp ⟨0, -Real.pi⟩ = -1 := by
  have e : (⟨0, -Real.pi⟩ : ℂ) = -(Real.pi * Complex.I) := by
    apply Complex.ext <;> simp
  rw [e, Complex.exp_neg, Complex.exp_pi_mul_I]
  norm_num

theorem exp_mk_zero_zero : Complex.exp ⟨0, -0⟩ = 1 := by
  have e : (⟨0, -0⟩ : ℂ) = 0 := by
    apply Complex.ext <;> simp
  rw [e, Complex.exp_zero]

theorem abs_mk_zero (y : ℝ) : Complex.abs ⟨0, y⟩ = |y| := by
  have e : (⟨0, y⟩ : ℂ) = (y : ℂ) * Complex.I := by
    apply Complex.ext <;> simp
  rw [e, map_mul, Complex.abs_ofReal, Complex.abs_I, mul_one]

/-- The quadratic `2.4875 * c^2 + 0.096 * c` takes the value `π` at the pulse
height used for the odd trajectories. -/
theorem pulse_height_pi :
    2.4875 * ((-0.096 + Real.sqrt (0.009216 + 9.95 * Real.pi)) / 4.975) ^ 2
      + 0.096 * ((-0.096 + Real.sqrt (0.009216 + 9.95 * Real.pi)) / 4.975) = Real.pi := by
  have hpos : (0 : ℝ) ≤ 0.009216 + 9.95 * Real.pi := by
    have := Real.pi_pos
    positivity
  have hsq := Real.sq_sqrt hpos
  generalize Real.sqrt (0.009216 + 9.95 * Real.pi) = r at hsq
  have : r ^ 2 = 0.009216 + 9.95 * Real.pi := hsq
  field_simp
  nlinarith [this]

/-- The raw sum of the desktop variant under the pulse generator, when the pulse
height `c` shifts the action by `π`: the 500 odd trajectories cancel 499 of the
even ones and what is left is the difference of two unit phases. -/
theorem desktop_pulse_sum (a c : ℝ) (hc : 2.4875 * c ^ 2 + 0.096 * c = Real.pi) :
    generatePaths.sum
        (generatePaths.sample ⟨Complex.mk, Complex.exp, fun z => Complex.abs z⟩
          (pulseGaussian a c) (Desktop.globals : Globals ℝ) 0).1
      = Complex.exp ⟨0, -calculateAction (Desktop.globals : Globals ℝ)
            (generateRandomPath.result zeroGaussian (Desktop.globals : Globals ℝ) (-2.0) 2.0 ()).1⟩
        * (Complex.exp ⟨0, -(2.4875 * a ^ 2 + 0.096 * a)⟩ - 1) := by
  rw [sample_eq_map _ _ _ _ (by simp [Desktop.globals]) (by simp [Desktop.globals]),
    generatePaths_sum_eq, List.map_map]
  have h49 : ((Desktop.globals : Globals ℝ).TIME_STEPS - 1).toNat = 49 := rfl
  have h1000 : (Desktop.globals : Globals ℝ).NUM_PATHS.toNat = 2 * (499 + 1) := rfl
  have hf : ((fun p : Path ℝ ℂ => p.amplitude) ∘ fun j : Nat =>
      scorePath ⟨Complex.mk, Complex.exp, fun z => Complex.abs z⟩ (Desktop.globals : Globals ℝ)
        (generateRandomPath.result (pulseGaussian a c) (Desktop.globals : Globals ℝ) (-2.0) 2.0
          (rngAfter (pulseGaussian a c) 0
            (j * ((Desktop.globals : Globals ℝ).TIME_STEPS - 1).toNat))).1)
      = fun j => Complex.exp ⟨0, -calculateAction (Desktop.globals : Globals ℝ)
            (generateRandomPath.result zeroGaussian (Desktop.globals : Globals ℝ) (-2.0) 2.0 ()).1⟩
          * Complex.exp ⟨0, -(2.4875 * pulseFirst a c j ^ 2 + 0.096 * pulseFirst a c j)⟩ := by
    funext j
    simp only [Function.comp_apply, scorePath, rawAmplitude, h49, rngAfter_pulse, zero_add,
      pulse_path_action]
    rw [← exp_mk_zero_add]
    congr 2
    simp only [Desktop.globals]
    norm_num
    ring
  rw [hf, h1000, alternating_sum _
    (Complex.exp ⟨0, -calculateAction (Desktop.globals : Globals ℝ)
        (generateRandomPath.result zeroGaussian (Desktop.globals : Globals ℝ) (-2.0) 2.0 ()).1⟩)
    (-Complex.exp ⟨0, -calculateAction (Desktop.globals : Globals ℝ)
        (generateRandomPath.result zeroGaussian (Desktop.globals : Globals ℝ) (-2.0) 2.0 ()).1⟩)]
  · simp only [pulseFirst, if_true]
    push_cast
    ring
  · intro j hj
    have hw : pulseFirst a c j = c := by
      simp only [pulseFirst]
      rw [if_neg (by omega), if_pos hj]
    rw [hw, hc, exp_mk_zero_neg_pi]
    ring
  · intro j hj0 hj
    have hw : pulseFirst a c j = 0 := by
      simp only [pulseFirst]
      rw [if_neg hj0, if_neg (by omega)]
    rw [hw]
    have e0 : (2.4875 * (0 : ℝ) ^ 2 + 0.096 * 0) = 0 := by norm_num
    rw [e0, exp_mk_zero_zero, mul_one]

/-- The magnitude of that raw sum is at most twice the action shift of
trajectory 0, and it is not zero. -/
theorem desktop_pulse_sum_abs (a c : ℝ) (hc : 2.4875 * c ^ 2 + 0.096 * c = Real.pi)
    (ha0 : 0 < a) (ha : 2.4875 * a ^ 2 + 0.096 * a ≤ 5e-11) :
    0 < Complex.abs (generatePaths.sum
        (generatePaths.sample ⟨Complex.mk, Complex.exp, fun z => Complex.abs z⟩
          (pulseGaussian a c) (Desktop.globals : Globals ℝ) 0).1) ∧
    Complex.abs (generatePaths.sum
        (generatePaths.sample ⟨Complex.mk, Complex.exp, fun z => Complex.abs z⟩
          (pulseGaussian a c) (Desktop.globals : Globals ℝ) 0).1) ≤ 1e-10 := by
  rw [desktop_pulse_sum a c hc, map_mul, abs_exp_mk_zero, one_mul]
  have hpos : 0 < 2.4875 * a ^ 2 + 0.096 * a := by positivity
  constructor
  · rw [AbsoluteValue.pos_iff]
    intro h0
    have him := congrArg Complex.im h0
    rw [Complex.sub_im, Complex.exp_im] at him
    simp only [Real.exp_zero, one_mul, Real.sin_neg, Complex.one_im, sub_zero, Complex.zero_im,
      neg_eq_zero] at him
    have hlt : 2.4875 * a ^ 2 + 0.096 * a < Real.pi := by
      have := Real.pi_gt_d2
      norm_num at ha this ⊢
      linarith
    exact absurd him (ne_of_gt (Real.sin_pos_of_pos_of_lt_pi hpos hlt))
  · have habs : Complex.abs ⟨0, -(2.4875 * a ^ 2 + 0.096 * a)⟩ = 2.4875 * a ^ 2 + 0.096 * a := by
      rw [abs_mk_zero, abs_neg, abs_of_pos hpos]
    have hle := @Complex.abs_exp_sub_one_le ⟨0, -(2.4875 * a ^ 2 + 0.096 * a)⟩
      (by rw [habs]; norm_num at ha ⊢; linarith)
    rw [habs] at hle
    norm_num at ha hle ⊢
    linarith

section Unguarded

variable {τ : Type}

/-- The method `generatePaths` of `main.cpp` has no guard: also when the raw sum
has magnitude at most `1e-10` the stored ensemble is the sampled one with every
amplitude divided by the sum, and no stored amplitude is the raw value
`exp (-i * action / HBAR)` of its trajectory. -/
theorem desktop_never_skips (dgaussian : τ → ℝ × τ)
    (dsim : Desktop.PathIntegralSimulation ℝ ℂ τ)
    (h : Complex.abs (generatePaths.sum
      (generatePaths.sample ⟨Complex.mk, Complex.exp, fun z => Complex.abs z⟩ dgaussian
        (Desktop.globals : Globals ℝ) dsim.rng).1) ≤ 1e-10) :
    (Desktop.generatePaths ⟨Complex.mk, Complex.exp, fun z => Complex.abs z⟩ dgaussian
        dsim).paths
      = generatePaths.normalize
          (generatePaths.sum
            (generatePaths.sample ⟨Complex.mk, Complex.exp, fun z => Complex.abs z⟩ dgaussian
              (Desktop.globals : Globals ℝ) dsim.rng).1)
          (generatePaths.sample ⟨Complex.mk, Complex.exp, fun z => Complex.abs z⟩ dgaussian
            (Desktop.globals : Globals ℝ) dsim.rng).1 ∧
    (Desktop.generatePaths ⟨Complex.mk, Complex.exp, fun z => Complex.abs z⟩ dgaussian
        dsim).paths.length = 1000 ∧
    ∀ p ∈ (Desktop.generatePaths ⟨Complex.mk, Complex.exp, fun z => Complex.abs z⟩ dgaussian
        dsim).paths,
      p.amplitude = Complex.exp ⟨0, -p.action / (Desktop.globals : Globals ℝ).HBAR⟩
        / generatePaths.sum
            (generatePaths.sample ⟨Complex.mk, Complex.exp, fun z => Complex.abs z⟩ dgaussian
              (Desktop.globals : Globals ℝ) dsim.rng).1 ∧
      p.amplitude ≠ Complex.exp ⟨0, -p.action / (Desktop.globals : Globals ℝ).HBAR⟩ := by
  refine ⟨desktop_generatePaths_paths _ _ _, ?_, fun p hp => ?_⟩
  · rw [desktop_generatePaths_paths, normalize_length,
      sample_length _ _ _ _ (by simp [Desktop.globals]) (by simp [Desktop.globals])]
    simp [Desktop.globals]
  · rw [desktop_generatePaths_paths] at hp
    have hamp := normalize_sample_amplitude dgaussian Desktop.globals dsim.rng _ p hp
    refine ⟨hamp, fun heq => ?_⟩
    have habs := congrArg (fun z => Complex.abs z) heq
    simp only [abs_exp_mk_zero] at habs
    rw [hamp, abs_div_unit] at habs
    have hs : Complex.abs (generatePaths.sum
        (generatePaths.sample ⟨Complex.mk, Complex.exp, fun z => Complex.abs z⟩ dgaussian
          (Desktop.globals : Globals ℝ) dsim.rng).1) = 1 := by
      rw [one_div] at habs
      exact inv_eq_one.mp habs
    rw [hs] at h
    norm_num at h

end Unguarded

/-- Claim C11 at its failing input: the desktop simulation with the pulse
generator whose draw 0 is `2e-10` and whose draws number 49 modulo 98 are the
height that shifts the action by `π`.  The raw sum is not zero and has magnitude
at most `1e-10`; the claim says the 1000 amplitudes stay raw, of magnitude 1,
but `generatePaths` of `main.cpp` divides each of them by the sum, which leaves
none of them raw and all of them of magnitude at least `1e10`. -/
theorem desktop_divides_by_tiny_sum :
    0 < Complex.abs (generatePaths.sum
      (generatePaths.sample ⟨Complex.mk, Complex.exp, fun z => Complex.abs z⟩
        (pulseGaussian 2e-10 ((-0.096 + Real.sqrt (0.009216 + 9.95 * Real.pi)) / 4.975))
        (Desktop.globals : Globals ℝ)
        (Desktop.memberInit 0 : Desktop.PathIntegralSimulation ℝ ℂ Nat).rng).1) ∧
    Complex.abs (generatePaths.sum
      (generatePaths.sample ⟨Complex.mk, Complex.exp, fun z => Complex.abs z⟩
        (pulseGaussian 2e-10 ((-0.096 + Real.sqrt (0.009216 + 9.95 * Real.pi)) / 4.975))
        (Desktop.globals : Globals ℝ)
        (Desktop.memberInit 0 : Desktop.PathIntegralSimulation ℝ ℂ Nat).rng).1) ≤ 1e-10 ∧
    (Desktop.generatePaths ⟨Complex.mk, Complex.exp, fun z => Complex.abs z⟩
        (pulseGaussian 2e-10 ((-0.096 + Real.sqrt (0.009216 + 9.95 * Real.pi)) / 4.975))
        (Desktop.memberInit 0)).paths.length = 1000 ∧
    ∀ p ∈ (Desktop.generatePaths ⟨Complex.mk, Complex.exp, fun z => Complex.abs z⟩
        (pulseGaussian 2e-10 ((-0.096 + Real.sqrt (0.009216 + 9.95 * Real.pi)) / 4.975))
        (Desktop.memberInit 0)).paths,
      p.amplitude ≠ Complex.exp ⟨0, -p.action / (Desktop.globals : Globals ℝ).HBAR⟩ ∧
      1e10 ≤ Complex.abs p.amplitude := by
  have hs : 0 < Complex.abs (generatePaths.sum
        (generatePaths.sample ⟨Complex.mk, Complex.exp, fun z => Complex.abs z⟩
          (pulseGaussian 2e-10 ((-0.096 + Real.sqrt (0.009216 + 9.95 * Real.pi)) / 4.975))
          (Desktop.globals : Globals ℝ)
          (Desktop.memberInit 0 : Desktop.PathIntegralSimulation ℝ ℂ Nat).rng).1) ∧
      Complex.abs (generatePaths.sum
        (generatePaths.sample ⟨Complex.mk, Complex.exp, fun z => Complex.abs z⟩
          (pulseGaussian 2e-10 ((-0.096 + Real.sqrt (0.009216 + 9.95 * Real.pi)) / 4.975))
          (Desktop.globals : Globals ℝ)
          (Desktop.memberInit 0 : Desktop.PathIntegralSimulation ℝ ℂ Nat).rng).1) ≤ 1e-10 :=
    desktop_pulse_sum_abs 2e-10
      ((-0.096 + Real.sqrt (0.009216 + 9.95 * Real.pi)) / 4.975) pulse_height_pi
      (by norm_num) (by norm_num)
  have k := desktop_never_skips
    (pulseGaussian 2e-10 ((-0.096 + Real.sqrt (0.009216 + 9.95 * Real.pi)) / 4.975))
    (Desktop.memberInit 0) hs.2
  refine ⟨hs.1, hs.2, k.2.1, fun p hp => ⟨(k.2.2 p hp).2, ?_⟩⟩
  rw [(k.2.2 p hp).1, abs_div_unit, le_div_iff₀ hs.1]
  have := hs.2
  norm_num at this ⊢
  linarith

end PathIntegral
